import Mathlib

/-!
# Input event delivery (mir::input::android::InputSender)

A shallow embedding of `src/server/input/android/input_sender.cpp`.

* Every object is a value; a method becomes a function from the old object
  (and its arguments) to the new object together with the list of calls it
  made on its collaborators (observer, report, main loop, publisher), in
  program order.
* A `uint32_t` is a natural number below `2 ^ 32`; arithmetic on it is reduced
  modulo `2 ^ 32` explicitly.
* The transport is external: the status a publish call returns is an argument
  of `send`, and the answers of `receiveFinishedSignal` are an argument of
  `on_finish_signal`.
* The clock is external: `now` is the time (in milliseconds) at which the
  method runs; an alarm rescheduled at `now` is due at `now + delay`.
* Locks are not modelled: every method runs to completion on its own.
-/

namespace mia

/-! ## Collaborator interfaces -/

/-- Modelled from the spec: the declaration of `droidinput::status_t` is not among the
sources. The publish results are ok, would_block, peer_gone and other_error;
`other_error` stands for every status code that is none of the three named ones. -/
inductive status_t where
  | OK
  | WOULD_BLOCK
  | DEAD_OBJECT
  | other_error
  deriving DecidableEq

/-- Modelled from the spec: the declaration of `MirEventType` is not among the sources.
`send` only asks whether the type is `mir_event_type_input`; every other
event type is `not_input`. -/
inductive MirEventType where
  | mir_event_type_input
  | not_input
  deriving DecidableEq

/-- Modelled from the spec: the declaration of `MirInputEventType` is not among the
sources. Events are key, touch or pointer; `unknown` is any value that reaches the
`default:` label of the switch in `send`. -/
inductive MirInputEventType where
  | mir_input_event_type_key
  | mir_input_event_type_touch
  | mir_input_event_type_pointer
  | unknown
  deriving DecidableEq

/-- Modelled from the spec: the declaration of `MirEvent` is not among the sources. An
event is an opaque payload with a timestamp; `send` reads its type, its input
type and its event time. -/
structure MirEvent where
  event_type : MirEventType
  input_type : MirInputEventType
  event_time : Int
  payload : Nat
  deriving DecidableEq

def mir_event_get_type (ev : MirEvent) : MirEventType := ev.event_type

def mir_input_event_get_type (ev : MirEvent) : MirInputEventType := ev.input_type

def mir_input_event_get_event_time (ev : MirEvent) : Int := ev.event_time

/-- Modelled from the spec: the declaration of `InputChannel` is not among the sources;
the code only reads its `server_fd()`. -/
structure InputChannel where
  server_fd : Int
  deriving DecidableEq

/-- Modelled from the spec: `input_send_entry.h` is not among the sources. An entry is
built as `InputSendEntry(next_seq(), event, channel)`; `sequence_id` is a
`uint32_t`. -/
structure InputSendEntry where
  sequence_id : Nat
  event : MirEvent
  channel : InputChannel
  deriving DecidableEq

/-- Modelled from the spec: `InputSendObserver::FailureReason`, declared in a header
that is not among the sources (spec: surface_gone, timed_out, peer_gone). -/
inductive FailureReason where
  | surface_disappeared
  | no_response_received
  | socket_error
  deriving DecidableEq

/-- Modelled from the spec: `InputSendObserver::InputResponse`, declared in a header
that is not among the sources. -/
inductive InputResponse where
  | consumed
  | not_consumed
  deriving DecidableEq

/-- A call on `InputSendObserver`; a surface is named by its address. -/
inductive ObserverCall where
  | send_failed (event : MirEvent) (surface : Nat) (reason : FailureReason)
  | send_suceeded (event : MirEvent) (surface : Nat) (state : InputResponse)
  | client_blocked (event : MirEvent) (surface : Nat)
  deriving DecidableEq

/-- A call on `InputReport`. -/
inductive ReportCall where
  | published_key_event (fd : Int) (seq : Nat) (event_time : Int)
  | published_motion_event (fd : Int) (seq : Nat) (event_time : Int)
  | received_event_finished_signal (fd : Int) (seq : Nat)
  deriving DecidableEq

/-- A call on `MainLoop` or on the alarm it created. -/
inductive MainLoopCall where
  | register_fd_handler (fd : Int)
  | unregister_fd_handler
  | create_alarm
  | reschedule_in (delay : Nat)
  | cancel
  deriving DecidableEq

/-- A call on the `droidinput::InputPublisher` of a transfer. -/
inductive PublisherCall where
  | publishKeyEvent (seq : Nat) (event : MirEvent)
  | publishMotionEvent (seq : Nat) (event : MirEvent)
  | receiveFinishedSignal
  deriving DecidableEq

/-- One call made on a collaborator. -/
inductive Call where
  | observer (c : ObserverCall)
  | report (c : ReportCall)
  | main_loop (c : MainLoopCall)
  | publisher (c : PublisherCall)
  deriving DecidableEq

/-- The observer calls of a trace, in order. -/
def observer_calls (calls : List Call) : List ObserverCall :=
  calls.filterMap fun c =>
    match c with
    | Call.observer o => some o
    | _ => none

/-- The exceptions the file throws (all are `std::runtime_error`). -/
inductive Exception where
  /-- Message "Failure sending input event : Unknown channel provided". -/
  | unknown_channel
  /-- Message "unknown input event type". -/
  | unknown_input_event_type
  /-- Message "Failure sending input event : ", with the current errno attached. -/
  | failure_sending_input_event
  deriving DecidableEq

/-- What a method leaves behind: the object after the call, the calls made on
collaborators, and the exception it threw, if any. -/
structure Outcome (σ : Type) where
  state : σ
  calls : List Call
  thrown : Option Exception

/-! ## Machine integers -/

def UINT32_MODULUS : Nat := 2 ^ 32

/-- Conversion of a `uint32_t` to `int` (32 bit, two's complement). -/
def to_int (n : Nat) : Int :=
  if n % UINT32_MODULUS < 2 ^ 31 then ((n % UINT32_MODULUS : Nat) : Int)
  else ((n % UINT32_MODULUS : Nat) : Int) - (UINT32_MODULUS : Int)

/-- Conversion of an `int` to `uint32_t`: reduction modulo `2 ^ 32`. -/
def to_uint32_t (i : Int) : Nat := (i % (UINT32_MODULUS : Int)).toNat

/-! ## ActiveTransfer -/

/-- The constant `input_send_timeout`, five seconds, in the milliseconds `reschedule_in`
takes. -/
def input_send_timeout : Nat := 5 * 1000

/-- State of a `mir::time::Alarm`. -/
inductive AlarmState where
  | cancelled
  | pending (deadline : Nat)
  | triggered
  deriving DecidableEq

/-- The members of `ActiveTransfer`. `observer` is `state.observer`, reached through
the `state` reference: true when the pointer is not null. `publisher_fd` is the
fd of the publisher channel, `surface` the address of the surface. `send_timer`
is `none` while the pointer is null. -/
structure ActiveTransfer where
  observer : Bool
  publisher_fd : Int
  surface : Nat
  subscribed : Bool
  pending_responses : List InputSendEntry
  send_timer : Option AlarmState
  deriving DecidableEq

/-- The constructor `ActiveTransfer(state, server_fd, surface)`. -/
def ActiveTransfer.create (observer : Bool) (server_fd : Int) (surface : Nat) : ActiveTransfer :=
  { observer := observer, publisher_fd := server_fd, surface := surface,
    subscribed := false, pending_responses := [], send_timer := none }

def unsubscribe (t : ActiveTransfer) : ActiveTransfer × List Call :=
  if t.subscribed = true then
    ({ t with subscribed := false }, [Call.main_loop MainLoopCall.unregister_fd_handler])
  else
    (t, [])

def subscribe (t : ActiveTransfer) : ActiveTransfer × List Call :=
  if t.subscribed = false then
    ({ t with subscribed := true },
      [Call.main_loop (MainLoopCall.register_fd_handler t.publisher_fd)])
  else
    (t, [])

def update_timer (now : Nat) (t : ActiveTransfer) : ActiveTransfer × List Call :=
  let created : List Call :=
    if t.send_timer = none then [Call.main_loop MainLoopCall.create_alarm] else []
  ({ t with send_timer := some (AlarmState.pending (now + input_send_timeout)) },
    created ++ [Call.main_loop (MainLoopCall.reschedule_in input_send_timeout)])

def cancel_timer (t : ActiveTransfer) : ActiveTransfer × List Call :=
  match t.send_timer with
  | some _ => ({ t with send_timer := some AlarmState.cancelled }, [Call.main_loop MainLoopCall.cancel])
  | none => (t, [])

def used_for_surface (t : ActiveTransfer) (surface : Nat) : Bool :=
  t.surface == surface

def enqueue_entry (now : Nat) (t : ActiveTransfer) (entry : InputSendEntry) :
    ActiveTransfer × List Call :=
  let (t1, c1) := subscribe t
  let (t2, c2) := if t1.pending_responses.isEmpty then update_timer now t1 else (t1, [])
  ({ t2 with pending_responses := t2.pending_responses ++ [entry] }, c1 ++ c2)

def unqueue_entry (now : Nat) (t : ActiveTransfer) (sequence_id : Nat)
    (execute_on_entry : InputSendEntry → List Call) : ActiveTransfer × List Call :=
  match t.pending_responses.find? (fun entry => entry.sequence_id == sequence_id) with
  | none => (t, [])
  | some result =>
    let t1 := { t with pending_responses :=
      t.pending_responses.eraseP (fun entry => entry.sequence_id == sequence_id) }
    let (t2, c2) := if t1.pending_responses.isEmpty then cancel_timer t1 else update_timer now t1
    (t2, c2 ++ execute_on_entry result)

/-- The publish step of `send`: the switch over the input event type. `none` is the
`default:` label, which throws. -/
def publish_calls (event : InputSendEntry) : Option (List Call) :=
  let event_time := mir_input_event_get_event_time event.event
  match mir_input_event_get_type event.event with
  | MirInputEventType.mir_input_event_type_key =>
    some [Call.publisher (PublisherCall.publishKeyEvent event.sequence_id event.event),
          Call.report (ReportCall.published_key_event event.channel.server_fd event.sequence_id event_time)]
  | MirInputEventType.mir_input_event_type_touch =>
    some [Call.publisher (PublisherCall.publishMotionEvent event.sequence_id event.event),
          Call.report (ReportCall.published_motion_event event.channel.server_fd event.sequence_id event_time)]
  | MirInputEventType.mir_input_event_type_pointer =>
    some [Call.publisher (PublisherCall.publishMotionEvent event.sequence_id event.event),
          Call.report (ReportCall.published_motion_event event.channel.server_fd event.sequence_id event_time)]
  | MirInputEventType.unknown => none

/-- The method `ActiveTransfer::send`; `error_status` is the status the publisher returns for
this event when it is asked to publish it. -/
def send (now : Nat) (t : ActiveTransfer) (event : InputSendEntry) (error_status : status_t) :
    Outcome ActiveTransfer :=
  if mir_event_get_type event.event ≠ MirEventType.mir_event_type_input then
    { state := t, calls := [], thrown := none }
  else
    match publish_calls event with
    | none => { state := t, calls := [], thrown := some Exception.unknown_input_event_type }
    | some published =>
      match error_status with
      | status_t.OK =>
        let (t1, c1) := enqueue_entry now t event
        { state := t1, calls := published ++ c1, thrown := none }
      | status_t.WOULD_BLOCK =>
        { state := t,
          calls := published ++
            (if t.observer then [Call.observer (ObserverCall.client_blocked event.event t.surface)]
             else []),
          thrown := none }
      | status_t.DEAD_OBJECT =>
        { state := t,
          calls := published ++
            (if t.observer then
              [Call.observer (ObserverCall.send_failed event.event t.surface FailureReason.socket_error)]
             else []),
          thrown := none }
      | status_t.other_error =>
        { state := t, calls := published, thrown := some Exception.failure_sending_input_event }

def on_surface_disappeared (t : ActiveTransfer) : Outcome ActiveTransfer :=
  let release_pending_responses := t.pending_responses
  { state := { t with pending_responses := [] },
    calls :=
      if t.observer then
        release_pending_responses.reverse.map fun entry =>
          Call.observer (ObserverCall.send_failed entry.event t.surface FailureReason.surface_disappeared)
      else [],
    thrown := none }

/-- One answer of `receiveFinishedSignal`. -/
structure FinishedSignal where
  status : status_t
  sequence : Nat
  handled : Bool
  deriving DecidableEq

/-- The method `ActiveTransfer::on_finish_signal`; `signals` are the answers the publisher gives
to the successive `receiveFinishedSignal` calls. When they run out the channel
has nothing more to read and the call reports a status other than OK. -/
def on_finish_signal (now : Nat) (t : ActiveTransfer) : List FinishedSignal → Outcome ActiveTransfer
  | [] => { state := t, calls := [Call.publisher PublisherCall.receiveFinishedSignal], thrown := none }
  | signal :: rest =>
    if signal.status = status_t.OK then
      let (t1, c1) := unqueue_entry now t signal.sequence fun entry =>
        if t.observer then
          [Call.observer (ObserverCall.send_suceeded entry.event t.surface
            (if signal.handled then InputResponse.consumed else InputResponse.not_consumed))]
        else []
      let r := on_finish_signal now t1 rest
      { state := r.state,
        calls := [Call.publisher PublisherCall.receiveFinishedSignal,
                  Call.report (ReportCall.received_event_finished_signal t.publisher_fd signal.sequence)]
                 ++ c1 ++ r.calls,
        thrown := r.thrown }
    else
      { state := t, calls := [Call.publisher PublisherCall.receiveFinishedSignal], thrown := none }

def on_response_timeout (now : Nat) (t : ActiveTransfer) : Outcome ActiveTransfer :=
  match t.pending_responses with
  | [] => { state := t, calls := [], thrown := none }
  | front :: _ =>
    let top_sequence_id : Int := to_int front.sequence_id
    let (t1, c1) := unqueue_entry now t (to_uint32_t top_sequence_id) fun entry =>
      if t.observer then
        [Call.observer (ObserverCall.send_failed entry.event t.surface FailureReason.no_response_received)]
      else []
    { state := t1, calls := c1, thrown := none }

/-- The destructor `~ActiveTransfer`. -/
def ActiveTransfer.destroy (t : ActiveTransfer) : ActiveTransfer × List Call :=
  unsubscribe t

/-! ## InputSenderState -/

/-- The members of `InputSenderState` the methods use: the observer pointer (true when
not null), the sequence counter (`uint32_t`) and the map from fd to transfer. -/
structure InputSenderState where
  observer : Bool
  seq : Nat
  transfers : Int → Option ActiveTransfer

def get_transfer (s : InputSenderState) (fd : Int) : Option ActiveTransfer :=
  s.transfers fd

/-- The loop `while(!++seq);` on a `uint32_t` counter; the result is the counter after
the loop. -/
def increment_until_nonzero (seq : Nat) : Nat :=
  if (seq + 1) % UINT32_MODULUS = 0 then increment_until_nonzero ((seq + 1) % UINT32_MODULUS)
  else (seq + 1) % UINT32_MODULUS
termination_by (if (seq + 1) % UINT32_MODULUS = 0 then 1 else 0)
decreasing_by
  simp_all [UINT32_MODULUS]

def next_seq (s : InputSenderState) : Nat × InputSenderState :=
  let seq := increment_until_nonzero s.seq
  (seq, { s with seq := seq })

def send_event (now : Nat) (s : InputSenderState) (channel : InputChannel) (event : MirEvent)
    (error_status : status_t) : Outcome InputSenderState :=
  match get_transfer s channel.server_fd with
  | none => { state := s, calls := [], thrown := some Exception.unknown_channel }
  | some transfer =>
    let (seq, s1) := next_seq s
    let entry : InputSendEntry := { sequence_id := seq, event := event, channel := channel }
    let r := send now transfer entry error_status
    { state := { s1 with transfers := Function.update s1.transfers channel.server_fd (some r.state) },
      calls := r.calls,
      thrown := r.thrown }

def add_transfer (s : InputSenderState) (fd : Int) (surface : Nat) : Outcome InputSenderState :=
  match get_transfer s fd with
  | some transfer =>
    if used_for_surface transfer surface then
      { state := s, calls := [], thrown := none }
    else
      let created := ActiveTransfer.create s.observer fd surface
      { state := { s with transfers := Function.update s.transfers fd (some created) },
        calls := (ActiveTransfer.destroy transfer).2,
        thrown := none }
  | none =>
    let created := ActiveTransfer.create s.observer fd surface
    { state := { s with transfers := Function.update s.transfers fd (some created) },
      calls := [],
      thrown := none }

/-- The method `InputSenderState::remove_transfer`; the second component of the state is the
removed transfer as `on_surface_disappeared` leaves it, before it is destroyed. -/
def remove_transfer (s : InputSenderState) (fd : Int) :
    Outcome (InputSenderState × Option ActiveTransfer) :=
  match get_transfer s fd with
  | some transfer =>
    let (t1, c1) := unsubscribe transfer
    let s1 := { s with transfers := Function.update s.transfers fd none }
    let r := on_surface_disappeared t1
    { state := (s1, some r.state),
      calls := c1 ++ r.calls ++ (ActiveTransfer.destroy r.state).2,
      thrown := r.thrown }
  | none => { state := (s, none), calls := [], thrown := none }

/-! ## Sample values -/

/-- An input event of the given input type; `payload` tells events apart. -/
def sample_event (input_type : MirInputEventType) (payload : Nat) : MirEvent :=
  { event_type := MirEventType.mir_event_type_input, input_type := input_type,
    event_time := 0, payload := payload }

/-- An entry for channel fd 7 carrying a key event. -/
def key_entry (sequence_id : Nat) : InputSendEntry :=
  { sequence_id := sequence_id,
    event := sample_event MirInputEventType.mir_input_event_type_key sequence_id,
    channel := { server_fd := 7 } }

/-- An entry whose input event has an input type other than key, touch and pointer. -/
def unknown_entry : InputSendEntry :=
  { sequence_id := 1, event := sample_event MirInputEventType.unknown 1,
    channel := { server_fd := 7 } }

/-- A transfer for fd 7 and the surface at address 99, with the given observer pointer
and pending entries. -/
def sample_transfer (observer : Bool) (pending : List InputSendEntry) : ActiveTransfer :=
  { observer := observer, publisher_fd := 7, surface := 99, subscribed := !pending.isEmpty,
    pending_responses := pending,
    send_timer := if pending.isEmpty then none else some (AlarmState.pending 5000) }

/-- The event is an input event whose input type is key, touch or pointer. -/
def publishable (ev : MirEvent) : Prop :=
  mir_event_get_type ev = MirEventType.mir_event_type_input ∧
  (mir_input_event_get_type ev = MirInputEventType.mir_input_event_type_key ∨
   mir_input_event_get_type ev = MirInputEventType.mir_input_event_type_touch ∨
   mir_input_event_get_type ev = MirInputEventType.mir_input_event_type_pointer)

instance (ev : MirEvent) : Decidable (publishable ev) := by
  unfold publishable
  infer_instance

/-- The teardown of a transfer, as `remove_transfer` performs it on the transfer it
found: `unsubscribe` followed by `on_surface_disappeared`. -/
def teardown (t : ActiveTransfer) : Outcome ActiveTransfer :=
  let (t1, c1) := unsubscribe t
  let r := on_surface_disappeared t1
  { state := r.state, calls := c1 ++ r.calls, thrown := r.thrown }

/-- A sender state whose only transfer is registered for fd 7. -/
def sample_state (observer : Bool) (pending : List InputSendEntry) : InputSenderState :=
  { observer := observer, seq := 5,
    transfers := fun fd => if fd = 7 then some (sample_transfer observer pending) else none }

/-! ## SceneObserver -/

/-- Modelled from the spec: the declaration of `scene::Surface` is not among the sources.
A surface is named by its address; `input_channel` is `none` when the pointer that
`input_channel()` returns is null. -/
structure Surface where
  address : Nat
  input_channel : Option InputChannel
  deriving DecidableEq

/-- The method `SceneObserver::surface_added`; `none` is a null surface pointer. -/
def surface_added (s : InputSenderState) (surface : Option Surface) : Outcome InputSenderState :=
  match surface with
  | some present =>
    match present.input_channel with
    | some channel => add_transfer s channel.server_fd present.address
    | none => { state := s, calls := [], thrown := none }
  | none => { state := s, calls := [], thrown := none }

def surface_exists (s : InputSenderState) (surface : Option Surface) : Outcome InputSenderState :=
  surface_added s surface

def remove_transfer_for (s : InputSenderState) (surface : Surface) :
    Outcome (InputSenderState × Option ActiveTransfer) :=
  match surface.input_channel with
  | none => { state := (s, none), calls := [], thrown := none }
  | some closed_channel => remove_transfer s closed_channel.server_fd

/-- The method `SceneObserver::surface_removed`; `none` is a null surface pointer. The
second component of the state is the removed transfer, as for `remove_transfer`. -/
def surface_removed (s : InputSenderState) (surface : Option Surface) :
    Outcome (InputSenderState × Option ActiveTransfer) :=
  match surface with
  | some present =>
    if present.input_channel.isSome then remove_transfer_for s present
    else { state := (s, none), calls := [], thrown := none }
  | none => { state := (s, none), calls := [], thrown := none }

/-! ## Sequences of calls -/

/-- The alarm of the transfer is pending: it exists and is scheduled to fire. -/
def armed (t : ActiveTransfer) : Bool :=
  match t.send_timer with
  | some (AlarmState.pending _) => true
  | _ => false

/-- The loop of `next_seq` again, counting its increments and giving up after `fuel`
of them: `some (seq, k)` when the loop ends with counter `seq` after `k` increments. -/
def increment_until_nonzero_bounded : Nat → Nat → Option (Nat × Nat)
  | 0, _ => none
  | fuel + 1, seq =>
    if (seq + 1) % UINT32_MODULUS = 0 then
      (increment_until_nonzero_bounded fuel ((seq + 1) % UINT32_MODULUS)).map
        fun r => (r.1, r.2 + 1)
    else some ((seq + 1) % UINT32_MODULUS, 1)

/-- The values `n` consecutive calls of `next_seq` return, in call order. -/
def next_seq_ids : Nat → InputSenderState → List Nat
  | 0, _ => []
  | n + 1, s => (next_seq s).1 :: next_seq_ids n (next_seq s).2

/-- Consecutive calls of `send_event` for one channel, each publish returning OK; the
result is the state after the last call. -/
def send_events (now : Nat) (s : InputSenderState) (channel : InputChannel) :
    List MirEvent → InputSenderState
  | [] => s
  | event :: rest =>
    send_events now (send_event now s channel event status_t.OK).state channel rest

/-- One call on a transfer: a `send` with the status its publish returns, the handling
of one acknowledgement by `on_finish_signal`, or `on_response_timeout`; each with the
time at which it runs. -/
inductive Operation where
  | send (now : Nat) (entry : InputSendEntry) (error_status : status_t)
  | acknowledge (now : Nat) (sequence : Nat) (handled : Bool)
  | timeout (now : Nat)
  deriving DecidableEq

def Operation.time : Operation → Nat
  | Operation.send now _ _ => now
  | Operation.acknowledge now _ _ => now
  | Operation.timeout now => now

def apply_operation (t : ActiveTransfer) : Operation → Outcome ActiveTransfer
  | Operation.send now entry error_status => send now t entry error_status
  | Operation.acknowledge now sequence handled =>
    on_finish_signal now t [{ status := status_t.OK, sequence := sequence, handled := handled }]
  | Operation.timeout now => on_response_timeout now t

/-- The transfer after a list of operations, each applied to the state the previous one
left, together with all calls made, in order. -/
def run_operations (t : ActiveTransfer) : List Operation → ActiveTransfer × List Call
  | [] => (t, [])
  | op :: rest =>
    let r := apply_operation t op
    let (t1, c1) := run_operations r.state rest
    (t1, r.calls ++ c1)

/-- The operation took the transfer from an empty to a non-empty pending sequence, or
removed an entry and left the sequence non-empty. -/
def rearms (before after : ActiveTransfer) : Bool :=
  (before.pending_responses.isEmpty && !after.pending_responses.isEmpty) ||
  (decide (after.pending_responses.length < before.pending_responses.length) &&
    !after.pending_responses.isEmpty)

/-- The time of the last operation of the list that satisfies `rearms`, or `start` when
there is none. -/
def last_rearm_time (t : ActiveTransfer) (start : Nat) : List Operation → Nat
  | [] => start
  | op :: rest =>
    let after := (apply_operation t op).state
    last_rearm_time after (if rearms t after then op.time else start) rest

/-- The place of a counter value on the cycle 1, 2, ..., 2 ^ 32 - 1 that `next_seq` walks,
counted from 0; the counter value 0 stands just before the first place. -/
def seq_position (seq : Nat) : Nat := (seq % 4294967296 + 4294967294) % 4294967295

/-! ## More sequences of calls -/

/-- The report calls of a trace, in order. -/
def report_calls (calls : List Call) : List ReportCall :=
  calls.filterMap fun c =>
    match c with
    | Call.report r => some r
    | _ => none

/-- The event an observer call is about. -/
def ObserverCall.event : ObserverCall → MirEvent
  | ObserverCall.send_failed event _ _ => event
  | ObserverCall.send_suceeded event _ _ => event
  | ObserverCall.client_blocked event _ => event

/-- The operation is a `send` that queues its entry: a key, touch or pointer input event
whose publish returns OK. -/
def Operation.queues : Operation → Bool
  | Operation.send _ entry status_t.OK => decide (publishable entry.event)
  | _ => false

/-- The alarm fires: its state becomes `triggered` and the callback given to
`create_alarm`, which is `on_response_timeout`, runs. -/
def fire_timer (now : Nat) (t : ActiveTransfer) : Outcome ActiveTransfer :=
  on_response_timeout now { t with send_timer := some AlarmState.triggered }

/-- One operation on a transfer, a timeout being taken only when the timer fires: when the
alarm is not pending it does not fire and nothing happens. -/
def apply_operation_fired (t : ActiveTransfer) : Operation → Outcome ActiveTransfer
  | Operation.timeout now =>
    if armed t then fire_timer now t else { state := t, calls := [], thrown := none }
  | op => apply_operation t op

def run_operations_fired (t : ActiveTransfer) : List Operation → ActiveTransfer × List Call
  | [] => (t, [])
  | op :: rest =>
    let r := apply_operation_fired t op
    let (t1, c1) := run_operations_fired r.state rest
    (t1, r.calls ++ c1)

/-- A call that can remove entries from a transfer: the handling of one acknowledgement,
a timeout, or the teardown. -/
inductive Removal where
  | acknowledge (now : Nat) (sequence : Nat) (handled : Bool)
  | timeout (now : Nat)
  | teardown
  deriving DecidableEq

def apply_removal (t : ActiveTransfer) : Removal → Outcome ActiveTransfer
  | Removal.acknowledge now sequence handled =>
    on_finish_signal now t [{ status := status_t.OK, sequence := sequence, handled := handled }]
  | Removal.timeout now => on_response_timeout now t
  | Removal.teardown => teardown t

def run_removals (t : ActiveTransfer) : List Removal → ActiveTransfer × List Call
  | [] => (t, [])
  | op :: rest =>
    let r := apply_removal t op
    let (t1, c1) := run_removals r.state rest
    (t1, r.calls ++ c1)

/-- A call of `subscribe` or of `unsubscribe` (from `remove_transfer` or from the
destructor). -/
inductive SubscriptionCall where
  | subscribe
  | unsubscribe
  deriving DecidableEq

def run_subscriptions (t : ActiveTransfer) : List SubscriptionCall → ActiveTransfer × List Call
  | [] => (t, [])
  | SubscriptionCall.subscribe :: rest =>
    let (t1, c1) := subscribe t
    let (t2, c2) := run_subscriptions t1 rest
    (t2, c1 ++ c2)
  | SubscriptionCall.unsubscribe :: rest =>
    let (t1, c1) := unsubscribe t
    let (t2, c2) := run_subscriptions t1 rest
    (t2, c1 ++ c2)

/-- The trace consists of `register_fd_handler` and `unregister_fd_handler` calls only,
and they alternate; the first is a register when `register_next` is true and an
unregister otherwise. -/
def alternating : Bool → List Call → Bool
  | _, [] => true
  | true, Call.main_loop (MainLoopCall.register_fd_handler _) :: rest => alternating false rest
  | false, Call.main_loop MainLoopCall.unregister_fd_handler :: rest => alternating true rest
  | _, _ => false

/-- The publisher calls of a trace, in order. -/
def publisher_calls (calls : List Call) : List PublisherCall :=
  calls.filterMap fun c =>
    match c with
    | Call.publisher p => some p
    | _ => none

/-- The signal `receiveFinishedSignal` gives for an acknowledgement (sequence, handled):
status OK with these values. -/
def acknowledgement (ack : Nat × Bool) : FinishedSignal :=
  { status := status_t.OK, sequence := ack.1, handled := ack.2 }

/-! ## Basic facts -/

theorem observer_calls_nil : observer_calls [] = [] := rfl

theorem observer_calls_append (xs ys : List Call) :
    observer_calls (xs ++ ys) = observer_calls xs ++ observer_calls ys := by
  simp [observer_calls, List.filterMap_append]

theorem observer_calls_subscribe (t : ActiveTransfer) : observer_calls (subscribe t).2 = [] := by
  unfold subscribe
  split <;> simp [observer_calls]

theorem observer_calls_unsubscribe (t : ActiveTransfer) :
    observer_calls (unsubscribe t).2 = [] := by
  unfold unsubscribe
  split <;> simp [observer_calls]

theorem observer_calls_update_timer (now : Nat) (t : ActiveTransfer) :
    observer_calls (update_timer now t).2 = [] := by
  unfold update_timer
  by_cases h : t.send_timer = none <;> simp [observer_calls, h]

theorem observer_calls_cancel_timer (t : ActiveTransfer) :
    observer_calls (cancel_timer t).2 = [] := by
  unfold cancel_timer
  split <;> simp [observer_calls]

theorem observer_calls_publish_calls (event : InputSendEntry) (published : List Call)
    (h : publish_calls event = some published) : observer_calls published = [] := by
  unfold publish_calls at h
  split at h <;> simp at h <;> subst h <;> simp [observer_calls]

theorem publish_calls_isSome (event : InputSendEntry) (h : publishable event.event) :
    ∃ published, publish_calls event = some published := by
  obtain ⟨_, h | h | h⟩ := h <;> simp [publish_calls, h]

theorem enqueue_entry_pending (now : Nat) (t : ActiveTransfer) (entry : InputSendEntry) :
    (enqueue_entry now t entry).1.pending_responses = t.pending_responses ++ [entry] := by
  unfold enqueue_entry subscribe update_timer
  by_cases hs : t.subscribed = false <;> by_cases he : t.pending_responses.isEmpty = true <;>
    simp [hs, he]

theorem enqueue_entry_subscribed (now : Nat) (t : ActiveTransfer) (entry : InputSendEntry) :
    (enqueue_entry now t entry).1.subscribed = true := by
  unfold enqueue_entry subscribe update_timer
  by_cases hs : t.subscribed = false <;> by_cases he : t.pending_responses.isEmpty = true <;>
    simp [hs, he]

theorem observer_calls_enqueue_entry (now : Nat) (t : ActiveTransfer) (entry : InputSendEntry) :
    observer_calls (enqueue_entry now t entry).2 = [] := by
  unfold enqueue_entry
  simp only [observer_calls_append, observer_calls_subscribe, List.nil_append]
  split <;> simp [observer_calls_update_timer, observer_calls_nil]

/-! ## send -/

/-- C1: for every transfer and every key, touch or pointer input event, when the publish
returns OK, `send` leaves `pending_responses` equal to the old sequence followed by the
entry, leaves the transfer subscribed, makes no observer call and throws nothing. -/
theorem send_ok_appends_entry (now : Nat) (t : ActiveTransfer) (entry : InputSendEntry)
    (h : publishable entry.event) :
    (send now t entry status_t.OK).state.pending_responses = t.pending_responses ++ [entry] ∧
    (send now t entry status_t.OK).state.subscribed = true ∧
    observer_calls (send now t entry status_t.OK).calls = [] ∧
    (send now t entry status_t.OK).thrown = none := by
  obtain ⟨published, hp⟩ := publish_calls_isSome entry h
  have ho := observer_calls_publish_calls entry published hp
  simp [send, h.1, hp, enqueue_entry_pending, enqueue_entry_subscribed,
    observer_calls_append, observer_calls_enqueue_entry, ho]

theorem send_ok_appends_entry_witness :
    publishable (key_entry 2).event ∧
    (send 10 (sample_transfer true [key_entry 1]) (key_entry 2) status_t.OK).state.pending_responses
      = [key_entry 1, key_entry 2] :=
  ⟨by decide, (send_ok_appends_entry 10 (sample_transfer true [key_entry 1]) (key_entry 2)
    (by decide)).1⟩

/-- C2, as the code has it: for every transfer and every key, touch or pointer input
event, when the publish returns WOULD_BLOCK, `send` leaves the transfer unchanged (the
entry is not queued) and throws nothing; it makes exactly one observer call,
`client_blocked` for that event and surface, when an observer is installed, and no
observer call when the observer pointer is null. -/
theorem send_would_block (now : Nat) (t : ActiveTransfer) (entry : InputSendEntry)
    (h : publishable entry.event) :
    (send now t entry status_t.WOULD_BLOCK).state = t ∧
    (send now t entry status_t.WOULD_BLOCK).thrown = none ∧
    (t.observer = true →
      observer_calls (send now t entry status_t.WOULD_BLOCK).calls
        = [ObserverCall.client_blocked entry.event t.surface]) ∧
    (t.observer = false →
      observer_calls (send now t entry status_t.WOULD_BLOCK).calls = []) := by
  obtain ⟨published, hp⟩ := publish_calls_isSome entry h
  have ho := observer_calls_publish_calls entry published hp
  refine ⟨by simp [send, h.1, hp], by simp [send, h.1, hp], ?_, ?_⟩
  · intro hobs
    simp [send, h.1, hp, observer_calls_append, ho, hobs]
    simp [observer_calls]
  · intro hobs
    simp [send, h.1, hp, observer_calls_append, ho, hobs]

theorem send_would_block_witness :
    publishable (key_entry 2).event ∧
    observer_calls
      (send 10 (sample_transfer true [key_entry 1]) (key_entry 2) status_t.WOULD_BLOCK).calls
      = [ObserverCall.client_blocked (key_entry 2).event 99] :=
  ⟨by decide, (send_would_block 10 (sample_transfer true [key_entry 1]) (key_entry 2)
    (by decide)).2.2.1 rfl⟩

/-- C2 fails as stated: with a null observer pointer a key event whose publish returns
WOULD_BLOCK produces no observer call at all, not one `client_blocked`. -/
theorem send_would_block_counterexample :
    publishable (key_entry 2).event ∧
    observer_calls
      (send 10 (sample_transfer false [key_entry 1]) (key_entry 2) status_t.WOULD_BLOCK).calls
      = [] ∧
    observer_calls
      (send 10 (sample_transfer false [key_entry 1]) (key_entry 2) status_t.WOULD_BLOCK).calls
      ≠ [ObserverCall.client_blocked (key_entry 2).event
          (sample_transfer false [key_entry 1]).surface] := by
  decide

/-- C3, as the code has it: for every transfer and every key, touch or pointer input
event, when the publish returns DEAD_OBJECT, `send` leaves the transfer unchanged (the
event is dropped) and throws nothing; it makes exactly one observer call, `send_failed`
with reason `socket_error` for that event and surface, when an observer is installed,
and no observer call when the observer pointer is null. -/
theorem send_dead_object (now : Nat) (t : ActiveTransfer) (entry : InputSendEntry)
    (h : publishable entry.event) :
    (send now t entry status_t.DEAD_OBJECT).state = t ∧
    (send now t entry status_t.DEAD_OBJECT).thrown = none ∧
    (t.observer = true →
      observer_calls (send now t entry status_t.DEAD_OBJECT).calls
        = [ObserverCall.send_failed entry.event t.surface FailureReason.socket_error]) ∧
    (t.observer = false →
      observer_calls (send now t entry status_t.DEAD_OBJECT).calls = []) := by
  obtain ⟨published, hp⟩ := publish_calls_isSome entry h
  have ho := observer_calls_publish_calls entry published hp
  refine ⟨by simp [send, h.1, hp], by simp [send, h.1, hp], ?_, ?_⟩
  · intro hobs
    simp [send, h.1, hp, observer_calls_append, ho, hobs]
    simp [observer_calls]
  · intro hobs
    simp [send, h.1, hp, observer_calls_append, ho, hobs]

theorem send_dead_object_witness :
    publishable (key_entry 2).event ∧
    observer_calls
      (send 10 (sample_transfer true [key_entry 1]) (key_entry 2) status_t.DEAD_OBJECT).calls
      = [ObserverCall.send_failed (key_entry 2).event 99 FailureReason.socket_error] :=
  ⟨by decide, (send_dead_object 10 (sample_transfer true [key_entry 1]) (key_entry 2)
    (by decide)).2.2.1 rfl⟩

/-- C3 fails as stated: with a null observer pointer a key event whose publish returns
DEAD_OBJECT produces no observer call at all, not one `send_failed`. -/
theorem send_dead_object_counterexample :
    publishable (key_entry 2).event ∧
    observer_calls
      (send 10 (sample_transfer false [key_entry 1]) (key_entry 2) status_t.DEAD_OBJECT).calls
      = [] ∧
    observer_calls
      (send 10 (sample_transfer false [key_entry 1]) (key_entry 2) status_t.DEAD_OBJECT).calls
      ≠ [ObserverCall.send_failed (key_entry 2).event
          (sample_transfer false [key_entry 1]).surface FailureReason.socket_error] := by
  decide

/-- C4, as the code has it: for every transfer and every input event, `send` throws if
and only if the input type is none of key, touch and pointer (the throw comes before
any publish) or the publish status is none of OK, WOULD_BLOCK and DEAD_OBJECT; so for
a key, touch or pointer event it throws exactly when the status is none of the three.
Whenever it throws, no observer call is made and the transfer is unchanged. -/
theorem send_throws_iff (now : Nat) (t : ActiveTransfer) (entry : InputSendEntry)
    (error_status : status_t)
    (h_input : mir_event_get_type entry.event = MirEventType.mir_event_type_input) :
    ((send now t entry error_status).thrown ≠ none ↔
      (¬ publishable entry.event ∨
        (error_status ≠ status_t.OK ∧ error_status ≠ status_t.WOULD_BLOCK ∧
          error_status ≠ status_t.DEAD_OBJECT))) ∧
    (publishable entry.event →
      ((send now t entry error_status).thrown ≠ none ↔
        (error_status ≠ status_t.OK ∧ error_status ≠ status_t.WOULD_BLOCK ∧
          error_status ≠ status_t.DEAD_OBJECT))) ∧
    ((send now t entry error_status).thrown ≠ none →
      observer_calls (send now t entry error_status).calls = [] ∧
      (send now t entry error_status).state = t) := by
  have key : ∀ k, mir_input_event_get_type entry.event = k →
      ((send now t entry error_status).thrown ≠ none ↔
        (¬ publishable entry.event ∨
          (error_status ≠ status_t.OK ∧ error_status ≠ status_t.WOULD_BLOCK ∧
            error_status ≠ status_t.DEAD_OBJECT))) ∧
      ((send now t entry error_status).thrown ≠ none →
        observer_calls (send now t entry error_status).calls = [] ∧
        (send now t entry error_status).state = t) := by
    intro k hk
    cases k <;> cases error_status <;>
      simp [send, publish_calls, publishable, h_input, hk, observer_calls]
  obtain ⟨h1, h2⟩ := key _ rfl
  refine ⟨h1, ?_, h2⟩
  intro hp
  rw [h1]
  constructor
  · rintro (hnp | hs)
    · exact absurd hp hnp
    · exact hs
  · exact Or.inr

theorem send_throws_iff_witness :
    mir_event_get_type (key_entry 2).event = MirEventType.mir_event_type_input ∧
    (send 10 (sample_transfer true [key_entry 1]) (key_entry 2) status_t.other_error).thrown
      ≠ none :=
  ⟨rfl, ((send_throws_iff 10 (sample_transfer true [key_entry 1]) (key_entry 2)
    status_t.other_error rfl).2.1 (by decide)).2 (by decide)⟩

/-- C4 fails as stated: an input event whose input type is none of key, touch and
pointer makes `send` throw although nothing was published and the status the publisher
would return is OK. -/
theorem send_throws_iff_counterexample :
    mir_event_get_type unknown_entry.event = MirEventType.mir_event_type_input ∧
    (send 10 (sample_transfer true []) unknown_entry status_t.OK).thrown
      = some Exception.unknown_input_event_type ∧
    (send 10 (sample_transfer true []) unknown_entry status_t.OK).calls = [] ∧
    ¬ ((send 10 (sample_transfer true []) unknown_entry status_t.OK).thrown ≠ none ↔
        (status_t.OK ≠ status_t.OK ∧ status_t.OK ≠ status_t.WOULD_BLOCK ∧
          status_t.OK ≠ status_t.DEAD_OBJECT)) := by
  decide

/-! ## Acknowledgement and timeout -/

theorem find_eraseP_split {α : Type} (p : α → Bool) :
    ∀ (l : List α) (x : α), l.find? p = some x →
      ∃ before after, l = before ++ x :: after ∧ p x = true ∧
        (∀ a ∈ before, p a = false) ∧ l.eraseP p = before ++ after
  | [], x, h => by simp at h
  | a :: l, x, h => by
    by_cases hp : p a = true
    · rw [List.find?_cons_of_pos _ hp] at h
      cases h
      exact ⟨[], l, rfl, hp, by simp, by simp [hp]⟩
    · rw [List.find?_cons_of_neg _ hp] at h
      obtain ⟨b, c, hl, hx, hb, he⟩ := find_eraseP_split p l x h
      refine ⟨a :: b, c, by simp [hl], hx, ?_, ?_⟩
      · intro y hy
        rcases List.mem_cons.1 hy with rfl | hy
        · simpa using hp
        · exact hb y hy
      · rw [List.eraseP_cons_of_neg hp, he]
        rfl

theorem cancel_timer_pending (t : ActiveTransfer) :
    (cancel_timer t).1.pending_responses = t.pending_responses := by
  unfold cancel_timer
  split <;> rfl

theorem update_timer_pending (now : Nat) (t : ActiveTransfer) :
    (update_timer now t).1.pending_responses = t.pending_responses := rfl

theorem unqueue_entry_found (now : Nat) (t : ActiveTransfer) (sequence_id : Nat)
    (execute_on_entry : InputSendEntry → List Call) (result : InputSendEntry)
    (h : t.pending_responses.find? (fun entry => entry.sequence_id == sequence_id) = some result) :
    (unqueue_entry now t sequence_id execute_on_entry).1.pending_responses
      = t.pending_responses.eraseP (fun entry => entry.sequence_id == sequence_id) ∧
    observer_calls (unqueue_entry now t sequence_id execute_on_entry).2
      = observer_calls (execute_on_entry result) := by
  unfold unqueue_entry
  rw [h]
  dsimp only
  split
  · simp [cancel_timer_pending, observer_calls_append, observer_calls_cancel_timer]
  · simp [update_timer_pending, observer_calls_append, observer_calls_update_timer]

theorem unqueue_entry_not_found (now : Nat) (t : ActiveTransfer) (sequence_id : Nat)
    (execute_on_entry : InputSendEntry → List Call)
    (h : ∀ entry ∈ t.pending_responses, entry.sequence_id ≠ sequence_id) :
    unqueue_entry now t sequence_id execute_on_entry = (t, []) := by
  have hf : t.pending_responses.find? (fun entry => entry.sequence_id == sequence_id) = none := by
    rw [List.find?_eq_none]
    intro x hx
    simpa using h x hx
  unfold unqueue_entry
  rw [hf]

theorem exists_find_of_mem (pending : List InputSendEntry) (sequence_id : Nat)
    (h : ∃ entry ∈ pending, entry.sequence_id = sequence_id) :
    ∃ result, pending.find? (fun entry => entry.sequence_id == sequence_id) = some result := by
  cases hf : pending.find? (fun entry => entry.sequence_id == sequence_id) with
  | some result => exact ⟨result, rfl⟩
  | none =>
    rw [List.find?_eq_none] at hf
    obtain ⟨entry, hmem, hid⟩ := h
    exact absurd (by simpa using hid) (hf entry hmem)

/-- C5, as the code has it: for every transfer and every sequence id that occurs in
`pending_responses` at any position, handling one acknowledgement (id, handled) removes
the first entry with that id and nothing else, the other entries keep their order, and
nothing is thrown; when an observer is installed exactly one observer call is made,
`send_suceeded` for the removed entry's event with `consumed` if handled and
`not_consumed` otherwise, and when the observer pointer is null no observer call is
made. -/
theorem on_finish_signal_removes_acknowledged (now : Nat) (t : ActiveTransfer)
    (sequence_id : Nat) (handled : Bool)
    (h : ∃ entry ∈ t.pending_responses, entry.sequence_id = sequence_id) :
    ∃ before removed after,
      t.pending_responses = before ++ removed :: after ∧
      removed.sequence_id = sequence_id ∧
      (∀ entry ∈ before, entry.sequence_id ≠ sequence_id) ∧
      (on_finish_signal now t [⟨status_t.OK, sequence_id, handled⟩]).state.pending_responses
        = before ++ after ∧
      (on_finish_signal now t [⟨status_t.OK, sequence_id, handled⟩]).thrown = none ∧
      observer_calls (on_finish_signal now t [⟨status_t.OK, sequence_id, handled⟩]).calls
        = (if t.observer then
            [ObserverCall.send_suceeded removed.event t.surface
              (if handled then InputResponse.consumed else InputResponse.not_consumed)]
           else []) := by
  obtain ⟨removed, hfind⟩ := exists_find_of_mem t.pending_responses sequence_id h
  obtain ⟨before, after, hsplit, hid, hbefore, herase⟩ := find_eraseP_split _ _ _ hfind
  refine ⟨before, removed, after, hsplit, by simpa using hid, ?_, ?_, ?_, ?_⟩
  · intro entry hmem
    simpa using hbefore entry hmem
  · simp only [on_finish_signal, if_true]
    rw [(unqueue_entry_found now t sequence_id _ removed hfind).1, herase]
  · simp [on_finish_signal]
  · simp only [on_finish_signal, if_true, observer_calls_append]
    rw [(unqueue_entry_found now t sequence_id _ removed hfind).2]
    cases t.observer <;> simp [observer_calls]

theorem on_finish_signal_removes_acknowledged_witness :
    (∃ entry ∈ (sample_transfer true [key_entry 1, key_entry 2, key_entry 3]).pending_responses,
      entry.sequence_id = 2) ∧
    ∃ before removed after,
      (sample_transfer true [key_entry 1, key_entry 2, key_entry 3]).pending_responses
        = before ++ removed :: after ∧
      removed.sequence_id = 2 ∧
      (∀ entry ∈ before, entry.sequence_id ≠ 2) ∧
      (on_finish_signal 10 (sample_transfer true [key_entry 1, key_entry 2, key_entry 3])
        [⟨status_t.OK, 2, true⟩]).state.pending_responses = before ++ after ∧
      (on_finish_signal 10 (sample_transfer true [key_entry 1, key_entry 2, key_entry 3])
        [⟨status_t.OK, 2, true⟩]).thrown = none ∧
      observer_calls (on_finish_signal 10
        (sample_transfer true [key_entry 1, key_entry 2, key_entry 3])
        [⟨status_t.OK, 2, true⟩]).calls
        = (if (sample_transfer true [key_entry 1, key_entry 2, key_entry 3]).observer then
            [ObserverCall.send_suceeded removed.event
              (sample_transfer true [key_entry 1, key_entry 2, key_entry 3]).surface
              (if true then InputResponse.consumed else InputResponse.not_consumed)]
           else []) :=
  ⟨⟨key_entry 2, by decide, rfl⟩,
    on_finish_signal_removes_acknowledged 10
      (sample_transfer true [key_entry 1, key_entry 2, key_entry 3]) 2 true
      ⟨key_entry 2, by decide, rfl⟩⟩

/-- C5 fails as stated: with a null observer pointer the acknowledgement of a pending
entry removes the entry but reports nothing, not one `send_suceeded`. -/
theorem on_finish_signal_removes_acknowledged_counterexample :
    key_entry 2 ∈ (sample_transfer false [key_entry 1, key_entry 2]).pending_responses ∧
    (on_finish_signal 10 (sample_transfer false [key_entry 1, key_entry 2])
      [⟨status_t.OK, 2, true⟩]).state.pending_responses = [key_entry 1] ∧
    observer_calls (on_finish_signal 10 (sample_transfer false [key_entry 1, key_entry 2])
      [⟨status_t.OK, 2, true⟩]).calls = [] ∧
    observer_calls (on_finish_signal 10 (sample_transfer false [key_entry 1, key_entry 2])
      [⟨status_t.OK, 2, true⟩]).calls
      ≠ [ObserverCall.send_suceeded (key_entry 2).event
          (sample_transfer false [key_entry 1, key_entry 2]).surface InputResponse.consumed] := by
  decide

/-- C6: for every transfer and every sequence id that matches no pending entry, handling
the acknowledgement leaves the whole transfer unchanged (in particular
`pending_responses` and `send_timer`), makes no observer call and throws nothing. -/
theorem on_finish_signal_ignores_unknown_id (now : Nat) (t : ActiveTransfer)
    (sequence_id : Nat) (handled : Bool)
    (h : ∀ entry ∈ t.pending_responses, entry.sequence_id ≠ sequence_id) :
    (on_finish_signal now t [⟨status_t.OK, sequence_id, handled⟩]).state = t ∧
    observer_calls (on_finish_signal now t [⟨status_t.OK, sequence_id, handled⟩]).calls = [] ∧
    (on_finish_signal now t [⟨status_t.OK, sequence_id, handled⟩]).thrown = none := by
  simp [on_finish_signal, unqueue_entry_not_found now t sequence_id _ h, observer_calls]

theorem on_finish_signal_ignores_unknown_id_witness :
    (∀ entry ∈ (sample_transfer true [key_entry 1, key_entry 3]).pending_responses,
      entry.sequence_id ≠ 2) ∧
    (on_finish_signal 10 (sample_transfer true [key_entry 1, key_entry 3])
      [⟨status_t.OK, 2, true⟩]).state = sample_transfer true [key_entry 1, key_entry 3] :=
  ⟨by decide, (on_finish_signal_ignores_unknown_id 10
    (sample_transfer true [key_entry 1, key_entry 3]) 2 true (by decide)).1⟩

theorem to_uint32_t_to_int (n : Nat) (h : n < UINT32_MODULUS) : to_uint32_t (to_int n) = n := by
  unfold to_uint32_t to_int
  unfold UINT32_MODULUS at *
  split <;> omega

theorem unqueue_entry_front (now : Nat) (t : ActiveTransfer)
    (execute_on_entry : InputSendEntry → List Call) (front : InputSendEntry)
    (rest : List InputSendEntry) (h : t.pending_responses = front :: rest) :
    (unqueue_entry now t front.sequence_id execute_on_entry).1.pending_responses = rest ∧
    observer_calls (unqueue_entry now t front.sequence_id execute_on_entry).2
      = observer_calls (execute_on_entry front) := by
  have hfind : t.pending_responses.find? (fun entry => entry.sequence_id == front.sequence_id)
      = some front := by
    rw [h]
    simp
  have hfound := unqueue_entry_found now t front.sequence_id execute_on_entry front hfind
  refine ⟨?_, hfound.2⟩
  rw [hfound.1, h]
  simp

/-- C7, as the code has it: `on_response_timeout` acts on the oldest entry only. If
`pending_responses` is empty nothing changes, no call is made and nothing is thrown.
Otherwise exactly the first entry is removed, the remaining entries keep their order and
nothing is thrown; when an observer is installed exactly one observer call is made,
`send_failed` with reason `no_response_received` for the removed entry's event, and when
the observer pointer is null no observer call is made. Sequence ids are `uint32_t`. -/
theorem on_response_timeout_removes_oldest (now : Nat) (t : ActiveTransfer)
    (h_range : ∀ entry ∈ t.pending_responses, entry.sequence_id < UINT32_MODULUS) :
    (t.pending_responses = [] →
      (on_response_timeout now t).state = t ∧
      (on_response_timeout now t).calls = [] ∧
      (on_response_timeout now t).thrown = none) ∧
    (∀ front rest, t.pending_responses = front :: rest →
      (on_response_timeout now t).state.pending_responses = rest ∧
      (on_response_timeout now t).thrown = none ∧
      observer_calls (on_response_timeout now t).calls
        = (if t.observer then
            [ObserverCall.send_failed front.event t.surface FailureReason.no_response_received]
           else [])) := by
  constructor
  · intro hempty
    simp [on_response_timeout, hempty]
  · intro front rest hcons
    have hlt : front.sequence_id < UINT32_MODULUS := h_range front (by simp [hcons])
    have hround := to_uint32_t_to_int front.sequence_id hlt
    simp only [on_response_timeout, hcons, hround]
    have hfront := unqueue_entry_front now t
      (fun entry => if t.observer then
        [Call.observer (ObserverCall.send_failed entry.event t.surface
          FailureReason.no_response_received)] else []) front rest hcons
    refine ⟨hfront.1, trivial, ?_⟩
    rw [hfront.2]
    cases t.observer <;> simp [observer_calls]

theorem on_response_timeout_removes_oldest_witness :
    (∀ entry ∈ (sample_transfer true [key_entry 4000000000, key_entry 2]).pending_responses,
      entry.sequence_id < UINT32_MODULUS) ∧
    (on_response_timeout 10
      (sample_transfer true [key_entry 4000000000, key_entry 2])).state.pending_responses
      = [key_entry 2] :=
  ⟨by decide, ((on_response_timeout_removes_oldest 10
    (sample_transfer true [key_entry 4000000000, key_entry 2]) (by decide)).2
      (key_entry 4000000000) [key_entry 2] rfl).1⟩

/-- C7 fails as stated: with a null observer pointer the timeout removes the oldest
entry but reports nothing, not one `send_failed`. -/
theorem on_response_timeout_removes_oldest_counterexample :
    (on_response_timeout 10
      (sample_transfer false [key_entry 1, key_entry 2])).state.pending_responses
      = [key_entry 2] ∧
    observer_calls (on_response_timeout 10
      (sample_transfer false [key_entry 1, key_entry 2])).calls = [] ∧
    observer_calls (on_response_timeout 10
      (sample_transfer false [key_entry 1, key_entry 2])).calls
      ≠ [ObserverCall.send_failed (key_entry 1).event
          (sample_transfer false [key_entry 1, key_entry 2]).surface
          FailureReason.no_response_received] := by
  decide

/-! ## Teardown -/

theorem observer_calls_map_observer (f : InputSendEntry → ObserverCall)
    (entries : List InputSendEntry) :
    observer_calls (entries.map fun entry => Call.observer (f entry)) = entries.map f := by
  induction entries with
  | nil => rfl
  | cons entry entries ih =>
    simp only [observer_calls] at ih
    simp [observer_calls, ih]

theorem observer_calls_on_surface_disappeared (t : ActiveTransfer) :
    observer_calls (on_surface_disappeared t).calls
      = (if t.observer then
          t.pending_responses.reverse.map fun entry =>
            ObserverCall.send_failed entry.event t.surface FailureReason.surface_disappeared
         else []) := by
  unfold on_surface_disappeared
  cases ho : t.observer
  · simp [observer_calls]
  · simp only [if_true]
    exact observer_calls_map_observer _ _

/-- C8, as the code has it: for every transfer, `on_surface_disappeared` leaves
`pending_responses` empty and throws nothing; when an observer is installed its observer
calls are exactly one `send_failed` with reason `surface_disappeared` per pending entry,
the most recently sent entry first and the oldest last, and when the observer pointer is
null no observer call is made. -/
theorem on_surface_disappeared_reports_newest_first (t : ActiveTransfer) :
    (on_surface_disappeared t).state.pending_responses = [] ∧
    (on_surface_disappeared t).thrown = none ∧
    observer_calls (on_surface_disappeared t).calls
      = (if t.observer then
          t.pending_responses.reverse.map fun entry =>
            ObserverCall.send_failed entry.event t.surface FailureReason.surface_disappeared
         else []) ∧
    (t.observer = true →
      (observer_calls (on_surface_disappeared t).calls).length = t.pending_responses.length) := by
  refine ⟨rfl, rfl, observer_calls_on_surface_disappeared t, ?_⟩
  intro ho
  rw [observer_calls_on_surface_disappeared]
  simp [ho]

theorem on_surface_disappeared_reports_newest_first_witness :
    observer_calls (on_surface_disappeared (sample_transfer true [key_entry 1, key_entry 2])).calls
      = [ObserverCall.send_failed (key_entry 2).event 99 FailureReason.surface_disappeared,
         ObserverCall.send_failed (key_entry 1).event 99 FailureReason.surface_disappeared] :=
  (on_surface_disappeared_reports_newest_first
    (sample_transfer true [key_entry 1, key_entry 2])).2.2.1

/-- C8 fails as stated: with a null observer pointer the teardown of a transfer with two
pending entries empties the sequence but makes no `send_failed` call, not two. -/
theorem on_surface_disappeared_reports_newest_first_counterexample :
    (sample_transfer false [key_entry 1, key_entry 2]).pending_responses.length = 2 ∧
    (on_surface_disappeared
      (sample_transfer false [key_entry 1, key_entry 2])).state.pending_responses = [] ∧
    observer_calls (on_surface_disappeared
      (sample_transfer false [key_entry 1, key_entry 2])).calls = [] ∧
    observer_calls (on_surface_disappeared
      (sample_transfer false [key_entry 1, key_entry 2])).calls
      ≠ [ObserverCall.send_failed (key_entry 2).event
          (sample_transfer false [key_entry 1, key_entry 2]).surface
          FailureReason.surface_disappeared,
         ObserverCall.send_failed (key_entry 1).event
          (sample_transfer false [key_entry 1, key_entry 2]).surface
          FailureReason.surface_disappeared] := by
  decide

theorem teardown_state (t : ActiveTransfer) :
    (teardown t).state = { t with subscribed := false, pending_responses := [] } := by
  unfold teardown unsubscribe on_surface_disappeared
  cases hs : t.subscribed <;> simp [hs]

theorem observer_calls_teardown (t : ActiveTransfer) :
    observer_calls (teardown t).calls = observer_calls (on_surface_disappeared t).calls := by
  unfold teardown unsubscribe on_surface_disappeared
  cases hs : t.subscribed <;> simp [observer_calls]

/-- C9, as the code has it: teardown (`unsubscribe` followed by
`on_surface_disappeared`) is idempotent. For every transfer, a second teardown leaves
the state the first one produced, makes no call at all and throws nothing; when an
observer is installed the two teardowns together make exactly one `send_failed` call
with reason `surface_disappeared` per originally pending entry (most recently sent
first), and when the observer pointer is null they make no observer call. -/
theorem teardown_twice (t : ActiveTransfer) :
    (teardown (teardown t).state).state = (teardown t).state ∧
    (teardown (teardown t).state).calls = [] ∧
    (teardown (teardown t).state).thrown = none ∧
    observer_calls ((teardown t).calls ++ (teardown (teardown t).state).calls)
      = (if t.observer then
          t.pending_responses.reverse.map fun entry =>
            ObserverCall.send_failed entry.event t.surface FailureReason.surface_disappeared
         else []) := by
  have hsecond : (teardown (teardown t).state).calls = [] := by
    rw [teardown_state]
    simp [teardown, unsubscribe, on_surface_disappeared]
  refine ⟨?_, hsecond, rfl, ?_⟩
  · rw [teardown_state, teardown_state]
  · rw [hsecond, List.append_nil, observer_calls_teardown]
    exact observer_calls_on_surface_disappeared t

/-- C9 fails as stated: with a null observer pointer two teardowns of a transfer with
two pending entries make no `send_failed` call, not one per pending entry. -/
theorem teardown_twice_counterexample :
    (sample_transfer false [key_entry 1, key_entry 2]).pending_responses.length = 2 ∧
    observer_calls
      ((teardown (sample_transfer false [key_entry 1, key_entry 2])).calls ++
        (teardown (teardown (sample_transfer false [key_entry 1, key_entry 2])).state).calls)
      = [] ∧
    (observer_calls
      ((teardown (sample_transfer false [key_entry 1, key_entry 2])).calls ++
        (teardown (teardown (sample_transfer false [key_entry 1, key_entry 2])).state).calls)).length
      ≠ (sample_transfer false [key_entry 1, key_entry 2]).pending_responses.length := by
  decide

/-! ## send_event -/

/-- C10: for every sender state and every channel whose fd has no registered transfer,
`send_event` throws the unknown-channel error, leaves the whole state unchanged (the
table, every transfer in it and the sequence counter) and makes no call, so no observer
call. -/
theorem send_event_unknown_channel (now : Nat) (s : InputSenderState) (channel : InputChannel)
    (event : MirEvent) (error_status : status_t)
    (h : get_transfer s channel.server_fd = none) :
    (send_event now s channel event error_status).thrown = some Exception.unknown_channel ∧
    (send_event now s channel event error_status).state = s ∧
    (send_event now s channel event error_status).calls = [] ∧
    observer_calls (send_event now s channel event error_status).calls = [] := by
  simp [send_event, h, observer_calls]

theorem send_event_unknown_channel_witness :
    get_transfer (sample_state true [key_entry 1]) (InputChannel.mk 8).server_fd = none ∧
    (send_event 10 (sample_state true [key_entry 1]) (InputChannel.mk 8)
      (key_entry 2).event status_t.OK).thrown = some Exception.unknown_channel :=
  ⟨by decide, (send_event_unknown_channel 10 (sample_state true [key_entry 1])
    (InputChannel.mk 8) (key_entry 2).event status_t.OK (by decide)).1⟩

/-! ## Scene observer: surfaces added and removed -/

theorem add_transfer_registers (s : InputSenderState) (fd : Int) (surface : Nat) :
    ∃ transfer, get_transfer (add_transfer s fd surface).state fd = some transfer ∧
      used_for_surface transfer surface = true := by
  unfold add_transfer
  cases h : get_transfer s fd with
  | none => simp [get_transfer, ActiveTransfer.create, used_for_surface]
  | some transfer =>
    by_cases hu : used_for_surface transfer surface = true
    · simp [hu, h]
    · simp only [hu]
      simp [get_transfer, ActiveTransfer.create, used_for_surface]

theorem add_transfer_same_surface (s : InputSenderState) (fd : Int) (surface : Nat)
    (transfer : ActiveTransfer) (h : get_transfer s fd = some transfer)
    (hu : used_for_surface transfer surface = true) :
    add_transfer s fd surface = { state := s, calls := [], thrown := none } := by
  simp [add_transfer, h, hu]

/-- C11: `surface_added` is idempotent. For every sender state in which a transfer is
registered for the fd of the surface's input channel and is used for that same surface,
`surface_added` (through `add_transfer`) leaves the whole state unchanged (the table,
the registered transfer with its pending entries, the counter), makes no call and throws
nothing; and for every sender state and every surface, adding the surface a second time
leaves the state the first addition produced. -/
theorem surface_added_idempotent (s : InputSenderState) (surface : Surface) :
    (∀ channel transfer, surface.input_channel = some channel →
      get_transfer s channel.server_fd = some transfer →
      used_for_surface transfer surface.address = true →
      (surface_added s (some surface)).state = s ∧
      get_transfer (surface_added s (some surface)).state channel.server_fd = some transfer ∧
      (surface_added s (some surface)).calls = [] ∧
      (surface_added s (some surface)).thrown = none) ∧
    (surface_added (surface_added s (some surface)).state (some surface)).state
      = (surface_added s (some surface)).state ∧
    (surface_added (surface_added s (some surface)).state (some surface)).calls = [] := by
  constructor
  · intro channel transfer hc ht hu
    simp [surface_added, hc, add_transfer_same_surface s _ _ transfer ht hu, ht]
  · cases hc : surface.input_channel with
    | none => simp [surface_added, hc]
    | some channel =>
      obtain ⟨transfer, ht, hu⟩ := add_transfer_registers s channel.server_fd surface.address
      simp [surface_added, hc, add_transfer_same_surface _ _ _ transfer ht hu]

theorem surface_added_idempotent_witness :
    (surface_added (sample_state true [key_entry 1]) (some ⟨99, some ⟨7⟩⟩)).state
      = sample_state true [key_entry 1] :=
  ((surface_added_idempotent (sample_state true [key_entry 1]) ⟨99, some ⟨7⟩⟩).1
    ⟨7⟩ (sample_transfer true [key_entry 1]) rfl (by decide) (by decide)).1

theorem remove_transfer_registered (s : InputSenderState) (fd : Int) (transfer : ActiveTransfer)
    (h : get_transfer s fd = some transfer) :
    (remove_transfer s fd).state.1 = { s with transfers := Function.update s.transfers fd none } ∧
    (remove_transfer s fd).state.2 = some (teardown transfer).state ∧
    observer_calls (remove_transfer s fd).calls
      = observer_calls (on_surface_disappeared transfer).calls ∧
    (remove_transfer s fd).thrown = none := by
  unfold remove_transfer
  rw [h]
  cases hs : transfer.subscribed <;>
    simp [teardown, ActiveTransfer.destroy, unsubscribe, on_surface_disappeared, hs,
      observer_calls]

theorem remove_transfer_unregistered (s : InputSenderState) (fd : Int)
    (h : get_transfer s fd = none) :
    remove_transfer s fd = { state := (s, none), calls := [], thrown := none } := by
  simp [remove_transfer, h]

/-- C12, as the code has it: for every sender state, `surface_removed` for a surface
whose channel fd has a registered transfer erases exactly that key (every other key keeps
its transfer, the counter is unchanged), tears the removed transfer down (it is left
unsubscribed with an empty pending sequence) and throws nothing; when an observer is
installed it reports `send_failed` with reason `surface_disappeared` exactly once for
each pending entry of that transfer, most recently sent first, and when the observer
pointer is null it reports nothing. For a null surface, a surface without input channel
or a channel without registered transfer it changes nothing and makes no call. -/
theorem surface_removed_erases_and_tears_down (s : InputSenderState) :
    (∀ (surface : Surface) channel transfer, surface.input_channel = some channel →
      get_transfer s channel.server_fd = some transfer →
      get_transfer (surface_removed s (some surface)).state.1 channel.server_fd = none ∧
      (∀ fd, fd ≠ channel.server_fd →
        get_transfer (surface_removed s (some surface)).state.1 fd = get_transfer s fd) ∧
      (surface_removed s (some surface)).state.1.seq = s.seq ∧
      (surface_removed s (some surface)).state.2
        = some { transfer with subscribed := false, pending_responses := [] } ∧
      (surface_removed s (some surface)).thrown = none ∧
      observer_calls (surface_removed s (some surface)).calls
        = (if transfer.observer then
            transfer.pending_responses.reverse.map fun entry =>
              ObserverCall.send_failed entry.event transfer.surface
                FailureReason.surface_disappeared
           else [])) ∧
    (∀ (surface : Surface), surface.input_channel = none →
      (surface_removed s (some surface)).state.1 = s ∧
      (surface_removed s (some surface)).calls = []) ∧
    (∀ (surface : Surface) channel, surface.input_channel = some channel →
      get_transfer s channel.server_fd = none →
      (surface_removed s (some surface)).state.1 = s ∧
      (surface_removed s (some surface)).calls = []) ∧
    ((surface_removed s none).state.1 = s ∧ (surface_removed s none).calls = []) := by
  refine ⟨?_, ?_, ?_, ?_⟩
  · intro surface channel transfer hc ht
    obtain ⟨h1, h2, h3, h4⟩ := remove_transfer_registered s channel.server_fd transfer ht
    have hr : surface_removed s (some surface) = remove_transfer s channel.server_fd := by
      simp [surface_removed, remove_transfer_for, hc]
    rw [hr, h1, h2, h3, h4, teardown_state, observer_calls_on_surface_disappeared]
    refine ⟨by simp [get_transfer], ?_, rfl, rfl, rfl, rfl⟩
    intro fd hfd
    simp [get_transfer, Function.update_noteq hfd]
  · intro surface hc
    simp [surface_removed, hc]
  · intro surface channel hc ht
    simp [surface_removed, remove_transfer_for, hc, remove_transfer_unregistered s _ ht]
  · simp [surface_removed]

theorem surface_removed_erases_and_tears_down_witness :
    get_transfer (surface_removed (sample_state true [key_entry 1, key_entry 2])
      (some ⟨99, some ⟨7⟩⟩)).state.1 (InputChannel.mk 7).server_fd = none ∧
    observer_calls (surface_removed (sample_state true [key_entry 1, key_entry 2])
      (some ⟨99, some ⟨7⟩⟩)).calls
      = [ObserverCall.send_failed (key_entry 2).event 99 FailureReason.surface_disappeared,
         ObserverCall.send_failed (key_entry 1).event 99 FailureReason.surface_disappeared] :=
  ⟨((surface_removed_erases_and_tears_down (sample_state true [key_entry 1, key_entry 2])).1
      ⟨99, some ⟨7⟩⟩ ⟨7⟩ (sample_transfer true [key_entry 1, key_entry 2]) rfl (by decide)).1,
   ((surface_removed_erases_and_tears_down (sample_state true [key_entry 1, key_entry 2])).1
      ⟨99, some ⟨7⟩⟩ ⟨7⟩ (sample_transfer true [key_entry 1, key_entry 2]) rfl
      (by decide)).2.2.2.2.2⟩

/-- C12 fails as stated: with a null observer pointer the removal of a surface whose
transfer has two pending entries erases the transfer but makes no `send_failed` call,
not one for each pending entry. -/
theorem surface_removed_erases_and_tears_down_counterexample :
    get_transfer (sample_state false [key_entry 1, key_entry 2]) 7
      = some (sample_transfer false [key_entry 1, key_entry 2]) ∧
    get_transfer (surface_removed (sample_state false [key_entry 1, key_entry 2])
      (some ⟨99, some ⟨7⟩⟩)).state.1 7 = none ∧
    observer_calls (surface_removed (sample_state false [key_entry 1, key_entry 2])
      (some ⟨99, some ⟨7⟩⟩)).calls = [] ∧
    (observer_calls (surface_removed (sample_state false [key_entry 1, key_entry 2])
      (some ⟨99, some ⟨7⟩⟩)).calls).length
      ≠ (sample_transfer false [key_entry 1, key_entry 2]).pending_responses.length := by
  decide

/-! ## Sequence ids -/

theorem increment_until_nonzero_eq (seq : Nat) :
    increment_until_nonzero seq
      = if (seq + 1) % UINT32_MODULUS = 0 then 1 else (seq + 1) % UINT32_MODULUS := by
  rw [increment_until_nonzero]
  split
  · next h =>
    rw [increment_until_nonzero, h]
    simp [UINT32_MODULUS]
  · rfl

theorem increment_until_nonzero_position (seq : Nat) :
    increment_until_nonzero seq = (seq_position seq + 1) % 4294967295 + 1 := by
  rw [increment_until_nonzero_eq]
  unfold seq_position UINT32_MODULUS
  norm_num
  split <;> omega

theorem seq_position_succ (p : Nat) :
    seq_position (p % 4294967295 + 1) = p % 4294967295 := by
  unfold seq_position
  omega

theorem next_seq_ids_closed (n : Nat) : ∀ s : InputSenderState,
    next_seq_ids n s
      = (List.range n).map fun k => (seq_position s.seq + k + 1) % 4294967295 + 1 := by
  induction n with
  | zero => intro s; rfl
  | succ n ih =>
    intro s
    rw [next_seq_ids, ih, List.range_succ_eq_map, List.map_cons, List.map_map]
    simp only [next_seq, increment_until_nonzero_position, seq_position_succ]
    refine congrArg₂ List.cons (by omega) ?_
    apply List.map_congr_left
    intro k _
    simp only [Function.comp, Nat.succ_eq_add_one]
    omega

theorem next_seq_ids_nodup (n : Nat) (s : InputSenderState) (hn : n ≤ 4294967295) :
    (next_seq_ids n s).Nodup := by
  rw [next_seq_ids_closed]
  apply List.Nodup.map_on _ (List.nodup_range n)
  intro x hx y hy hxy
  rw [List.mem_range] at hx hy
  omega

theorem next_seq_ids_ne_zero (n : Nat) (s : InputSenderState) :
    ∀ id ∈ next_seq_ids n s, id ≠ 0 := by
  rw [next_seq_ids_closed]
  intro id hid
  rw [List.mem_map] at hid
  obtain ⟨k, _, rfl⟩ := hid
  omega

theorem next_seq_ids_congr (n : Nat) (s s1 : InputSenderState) (h : s.seq = s1.seq) :
    next_seq_ids n s = next_seq_ids n s1 := by
  rw [next_seq_ids_closed, next_seq_ids_closed, h]

theorem next_seq_ids_length (n : Nat) (s : InputSenderState) : (next_seq_ids n s).length = n := by
  rw [next_seq_ids_closed]
  simp

theorem send_ok_pending (now : Nat) (t : ActiveTransfer) (entry : InputSendEntry)
    (h : publishable entry.event) :
    (send now t entry status_t.OK).state.pending_responses = t.pending_responses ++ [entry] := by
  obtain ⟨published, hp⟩ := publish_calls_isSome entry h
  simp [send, h.1, hp, enqueue_entry_pending]

theorem send_event_registered (now : Nat) (s : InputSenderState) (channel : InputChannel)
    (event : MirEvent) (error_status : status_t) (transfer : ActiveTransfer)
    (h : get_transfer s channel.server_fd = some transfer) :
    get_transfer (send_event now s channel event error_status).state channel.server_fd
      = some (send now transfer ⟨(next_seq s).1, event, channel⟩ error_status).state ∧
    (send_event now s channel event error_status).state.seq = (next_seq s).1 := by
  unfold send_event
  rw [h]
  simp [get_transfer, next_seq]

theorem send_events_pending_ids (now : Nat) (channel : InputChannel) :
    ∀ (events : List MirEvent) (s : InputSenderState) (transfer : ActiveTransfer),
      get_transfer s channel.server_fd = some transfer →
      (∀ event ∈ events, publishable event) →
      ∃ after, get_transfer (send_events now s channel events) channel.server_fd = some after ∧
        after.pending_responses.map (fun entry => entry.sequence_id)
          = transfer.pending_responses.map (fun entry => entry.sequence_id)
            ++ next_seq_ids events.length s
  | [], s, transfer, h, _ => ⟨transfer, h, by simp [next_seq_ids]⟩
  | event :: rest, s, transfer, h, hp => by
    obtain ⟨h1, h2⟩ := send_event_registered now s channel event status_t.OK transfer h
    obtain ⟨after, ha, hids⟩ := send_events_pending_ids now channel rest _ _ h1
      (fun e he => hp e (List.mem_cons_of_mem _ he))
    refine ⟨after, ha, ?_⟩
    rw [hids, send_ok_pending now transfer _ (hp event (List.mem_cons_self _ _))]
    rw [next_seq_ids_congr rest.length _ (next_seq s).2 (by rw [h2]; rfl)]
    simp [next_seq_ids]

/-- C13: for every counter value and every n with n <= 2 ^ 32 - 1, the ids returned by n
consecutive `next_seq` calls are all nonzero and pairwise distinct; and n consecutive
`send_event` calls for a registered channel, with key, touch or pointer events whose
publish returns OK, append entries carrying exactly these ids, in this order, to the
pending sequence of the transfer. -/
theorem next_seq_ids_nonzero_distinct (s : InputSenderState) (n : Nat)
    (hn : n ≤ UINT32_MODULUS - 1) :
    (next_seq_ids n s).length = n ∧
    (∀ id ∈ next_seq_ids n s, id ≠ 0) ∧
    (next_seq_ids n s).Nodup ∧
    (∀ now channel transfer (events : List MirEvent),
      get_transfer s channel.server_fd = some transfer →
      events.length = n →
      (∀ event ∈ events, publishable event) →
      ∃ after, get_transfer (send_events now s channel events) channel.server_fd = some after ∧
        after.pending_responses.map (fun entry => entry.sequence_id)
          = transfer.pending_responses.map (fun entry => entry.sequence_id)
            ++ next_seq_ids n s) := by
  refine ⟨next_seq_ids_length n s, next_seq_ids_ne_zero n s,
    next_seq_ids_nodup n s (by simpa [UINT32_MODULUS] using hn), ?_⟩
  intro now channel transfer events h hlen hp
  subst hlen
  exact send_events_pending_ids now channel events s transfer h hp

theorem next_seq_ids_nonzero_distinct_witness :
    3 ≤ UINT32_MODULUS - 1 ∧
    (next_seq_ids 3 (sample_state true [])).length = 3 ∧
    (∀ id ∈ next_seq_ids 3 (sample_state true []), id ≠ 0) ∧
    (next_seq_ids 3 (sample_state true [])).Nodup :=
  ⟨by decide,
   (next_seq_ids_nonzero_distinct (sample_state true []) 3 (by decide)).1,
   (next_seq_ids_nonzero_distinct (sample_state true []) 3 (by decide)).2.1,
   (next_seq_ids_nonzero_distinct (sample_state true []) 3 (by decide)).2.2.1⟩

theorem increment_until_nonzero_bounded_two (seq : Nat) :
    ∃ k, k ≤ 2 ∧ increment_until_nonzero_bounded 2 seq = some (increment_until_nonzero seq, k) := by
  rw [increment_until_nonzero_eq]
  by_cases h : (seq + 1) % UINT32_MODULUS = 0
  · refine ⟨2, le_refl 2, ?_⟩
    have h0 : (seq + 1) % 4294967296 = 0 := by simpa [UINT32_MODULUS] using h
    have h1 : (seq + 1 + 1) % 4294967296 = 1 := by omega
    simp [increment_until_nonzero_bounded, UINT32_MODULUS, h0, h1]
  · exact ⟨1, by decide, by simp [increment_until_nonzero_bounded, h]⟩

/-- C14: `next_seq` is the 32-bit successor that skips zero. For every counter value c
it returns c + 1 when c < 2 ^ 32 - 1 and 1 when c = 2 ^ 32 - 1, the stored counter equals
the returned value and nothing else of the state changes, and the loop ends after at most
two increments. -/
theorem next_seq_successor_skipping_zero (s : InputSenderState) :
    (s.seq < UINT32_MODULUS - 1 → (next_seq s).1 = s.seq + 1) ∧
    (s.seq = UINT32_MODULUS - 1 → (next_seq s).1 = 1) ∧
    (next_seq s).2 = { s with seq := (next_seq s).1 } ∧
    (∃ k, k ≤ 2 ∧ increment_until_nonzero_bounded 2 s.seq = some ((next_seq s).1, k)) := by
  refine ⟨?_, ?_, rfl, increment_until_nonzero_bounded_two s.seq⟩
  · intro h
    simp only [next_seq, increment_until_nonzero_eq]
    unfold UINT32_MODULUS at *
    split <;> omega
  · intro h
    simp only [next_seq, increment_until_nonzero_eq]
    unfold UINT32_MODULUS at *
    split <;> omega

theorem next_seq_successor_skipping_zero_witness :
    (next_seq { observer := true, seq := 4294967295, transfers := fun _ => none }).1 = 1 ∧
    (next_seq { observer := true, seq := 41, transfers := fun _ => none }).1 = 41 + 1 :=
  ⟨(next_seq_successor_skipping_zero
      { observer := true, seq := 4294967295, transfers := fun _ => none }).2.1 (by decide),
   (next_seq_successor_skipping_zero
      { observer := true, seq := 41, transfers := fun _ => none }).1 (by decide)⟩

/-! ## Whole-state descriptions of the operations -/

theorem enqueue_entry_state (now : Nat) (t : ActiveTransfer) (entry : InputSendEntry) :
    (enqueue_entry now t entry).1
      = { t with
          subscribed := true,
          pending_responses := t.pending_responses ++ [entry],
          send_timer :=
            if t.pending_responses.isEmpty then
              some (AlarmState.pending (now + input_send_timeout))
            else t.send_timer } := by
  unfold enqueue_entry subscribe update_timer
  cases hs : t.subscribed <;> by_cases he : t.pending_responses.isEmpty = true <;>
    simp [hs, he]

theorem send_ok_state (now : Nat) (t : ActiveTransfer) (entry : InputSendEntry)
    (h : publishable entry.event) :
    (send now t entry status_t.OK).state
      = { t with
          subscribed := true,
          pending_responses := t.pending_responses ++ [entry],
          send_timer :=
            if t.pending_responses.isEmpty then
              some (AlarmState.pending (now + input_send_timeout))
            else t.send_timer } ∧
    observer_calls (send now t entry status_t.OK).calls = [] ∧
    (send now t entry status_t.OK).thrown = none := by
  obtain ⟨published, hp⟩ := publish_calls_isSome entry h
  have ho := observer_calls_publish_calls entry published hp
  refine ⟨?_, ?_, ?_⟩
  · rw [← enqueue_entry_state]
    simp [send, h.1, hp]
  · simp [send, h.1, hp, observer_calls_append, observer_calls_enqueue_entry, ho]
  · simp [send, h.1, hp]

theorem unqueue_entry_state_found (now : Nat) (t : ActiveTransfer) (sequence_id : Nat)
    (execute_on_entry : InputSendEntry → List Call) (result : InputSendEntry)
    (h : t.pending_responses.find? (fun entry => entry.sequence_id == sequence_id) = some result) :
    (unqueue_entry now t sequence_id execute_on_entry).1
      = { t with
          pending_responses :=
            t.pending_responses.eraseP (fun entry => entry.sequence_id == sequence_id),
          send_timer :=
            if (t.pending_responses.eraseP
                (fun entry => entry.sequence_id == sequence_id)).isEmpty then
              t.send_timer.map fun _ => AlarmState.cancelled
            else some (AlarmState.pending (now + input_send_timeout)) } := by
  unfold unqueue_entry
  rw [h]
  dsimp only
  split
  · next he =>
    unfold cancel_timer
    cases ht : t.send_timer <;> simp_all
  · next he =>
    unfold update_timer
    simp_all

theorem on_finish_signal_found (now : Nat) (t : ActiveTransfer) (sequence_id : Nat)
    (handled : Bool) (result : InputSendEntry)
    (h : t.pending_responses.find? (fun entry => entry.sequence_id == sequence_id) = some result) :
    (on_finish_signal now t [⟨status_t.OK, sequence_id, handled⟩]).state
      = { t with
          pending_responses :=
            t.pending_responses.eraseP (fun entry => entry.sequence_id == sequence_id),
          send_timer :=
            if (t.pending_responses.eraseP
                (fun entry => entry.sequence_id == sequence_id)).isEmpty then
              t.send_timer.map fun _ => AlarmState.cancelled
            else some (AlarmState.pending (now + input_send_timeout)) } ∧
    observer_calls (on_finish_signal now t [⟨status_t.OK, sequence_id, handled⟩]).calls
      = (if t.observer then
          [ObserverCall.send_suceeded result.event t.surface
            (if handled then InputResponse.consumed else InputResponse.not_consumed)]
         else []) ∧
    (on_finish_signal now t [⟨status_t.OK, sequence_id, handled⟩]).thrown = none := by
  refine ⟨?_, ?_, ?_⟩
  · simp only [on_finish_signal, if_true]
    exact unqueue_entry_state_found now t sequence_id _ result h
  · simp only [on_finish_signal, if_true, observer_calls_append]
    rw [(unqueue_entry_found now t sequence_id _ result h).2]
    cases t.observer <;> simp [observer_calls]
  · simp [on_finish_signal]

theorem on_finish_signal_not_found (now : Nat) (t : ActiveTransfer) (sequence_id : Nat)
    (handled : Bool) (h : ∀ entry ∈ t.pending_responses, entry.sequence_id ≠ sequence_id) :
    (on_finish_signal now t [⟨status_t.OK, sequence_id, handled⟩]).state = t ∧
    observer_calls (on_finish_signal now t [⟨status_t.OK, sequence_id, handled⟩]).calls = [] := by
  simp [on_finish_signal, unqueue_entry_not_found now t sequence_id _ h, observer_calls]

theorem on_response_timeout_front (now : Nat) (t : ActiveTransfer) (front : InputSendEntry)
    (rest : List InputSendEntry) (h : t.pending_responses = front :: rest)
    (h_range : front.sequence_id < UINT32_MODULUS) :
    (on_response_timeout now t).state
      = { t with
          pending_responses := rest,
          send_timer :=
            if rest.isEmpty then t.send_timer.map fun _ => AlarmState.cancelled
            else some (AlarmState.pending (now + input_send_timeout)) } ∧
    observer_calls (on_response_timeout now t).calls
      = (if t.observer then
          [ObserverCall.send_failed front.event t.surface FailureReason.no_response_received]
         else []) ∧
    (on_response_timeout now t).thrown = none := by
  have hround := to_uint32_t_to_int front.sequence_id h_range
  have hfind : t.pending_responses.find? (fun entry => entry.sequence_id == front.sequence_id)
      = some front := by
    rw [h]
    simp
  have herase : t.pending_responses.eraseP (fun entry => entry.sequence_id == front.sequence_id)
      = rest := by
    rw [h]
    simp
  simp only [on_response_timeout, h, hround]
  refine ⟨?_, ?_, trivial⟩
  · have hstate := unqueue_entry_state_found now t front.sequence_id
      (fun entry => if t.observer then
        [Call.observer (ObserverCall.send_failed entry.event t.surface
          FailureReason.no_response_received)] else []) front hfind
    rw [herase] at hstate
    exact hstate
  · rw [(unqueue_entry_found now t front.sequence_id _ front hfind).2]
    cases t.observer <;> simp [observer_calls]

theorem on_response_timeout_empty (now : Nat) (t : ActiveTransfer)
    (h : t.pending_responses = []) :
    on_response_timeout now t = { state := t, calls := [], thrown := none } := by
  simp [on_response_timeout, h]

/-! ## Scenarios -/

/-- C15, as the code has it: for every transfer with an empty pending sequence and every
key, touch or pointer input event whose publish returns OK, `send` followed by the
acknowledgement (sequence id of the entry, handled = true) leaves the pending sequence
empty and throws nothing; when an observer is installed the two calls together make
exactly one observer call, `send_suceeded` for the event with `consumed`, and when the
observer pointer is null they make no observer call. -/
theorem send_then_acknowledge (now later : Nat) (t : ActiveTransfer) (entry : InputSendEntry)
    (h_empty : t.pending_responses = []) (h : publishable entry.event) :
    (on_finish_signal later (send now t entry status_t.OK).state
      [⟨status_t.OK, entry.sequence_id, true⟩]).state.pending_responses = [] ∧
    (send now t entry status_t.OK).thrown = none ∧
    (on_finish_signal later (send now t entry status_t.OK).state
      [⟨status_t.OK, entry.sequence_id, true⟩]).thrown = none ∧
    observer_calls ((send now t entry status_t.OK).calls ++
      (on_finish_signal later (send now t entry status_t.OK).state
        [⟨status_t.OK, entry.sequence_id, true⟩]).calls)
      = (if t.observer then
          [ObserverCall.send_suceeded entry.event t.surface InputResponse.consumed]
         else []) := by
  obtain ⟨hstate, hcalls, hthrown⟩ := send_ok_state now t entry h
  have hfind : (send now t entry status_t.OK).state.pending_responses.find?
      (fun queued => queued.sequence_id == entry.sequence_id) = some entry := by
    rw [hstate, h_empty]
    simp
  obtain ⟨hack, hreport, hnone⟩ := on_finish_signal_found later
    (send now t entry status_t.OK).state entry.sequence_id true entry hfind
  refine ⟨?_, hthrown, hnone, ?_⟩
  · rw [hack, hstate, h_empty]
    simp
  · rw [observer_calls_append, hcalls, hreport, hstate]
    simp

theorem send_then_acknowledge_witness :
    (sample_transfer true []).pending_responses = [] ∧
    publishable (key_entry 6).event ∧
    observer_calls ((send 10 (sample_transfer true []) (key_entry 6) status_t.OK).calls ++
      (on_finish_signal 20 (send 10 (sample_transfer true []) (key_entry 6) status_t.OK).state
        [⟨status_t.OK, (key_entry 6).sequence_id, true⟩]).calls)
      = (if (sample_transfer true []).observer then
          [ObserverCall.send_suceeded (key_entry 6).event (sample_transfer true []).surface
            InputResponse.consumed]
         else []) :=
  ⟨rfl, by decide,
    (send_then_acknowledge 10 20 (sample_transfer true []) (key_entry 6) rfl (by decide)).2.2.2⟩

/-- C15 fails as stated: with a null observer pointer the round trip leaves the pending
sequence empty but produces no observer report, not one `send_suceeded`. -/
theorem send_then_acknowledge_counterexample :
    (sample_transfer false []).pending_responses = [] ∧
    publishable (key_entry 6).event ∧
    (on_finish_signal 20 (send 10 (sample_transfer false []) (key_entry 6) status_t.OK).state
      [⟨status_t.OK, 6, true⟩]).state.pending_responses = [] ∧
    observer_calls ((send 10 (sample_transfer false []) (key_entry 6) status_t.OK).calls ++
      (on_finish_signal 20 (send 10 (sample_transfer false []) (key_entry 6) status_t.OK).state
        [⟨status_t.OK, 6, true⟩]).calls) = [] ∧
    observer_calls ((send 10 (sample_transfer false []) (key_entry 6) status_t.OK).calls ++
      (on_finish_signal 20 (send 10 (sample_transfer false []) (key_entry 6) status_t.OK).state
        [⟨status_t.OK, 6, true⟩]).calls)
      ≠ [ObserverCall.send_suceeded (key_entry 6).event (sample_transfer false []).surface
          InputResponse.consumed] := by
  decide

theorem run_operations_append (t : ActiveTransfer) (first second : List Operation) :
    run_operations t (first ++ second)
      = ((run_operations (run_operations t first).1 second).1,
         (run_operations t first).2 ++ (run_operations (run_operations t first).1 second).2) := by
  induction first generalizing t with
  | nil => simp [run_operations]
  | cons op rest ih => simp [run_operations, ih]

theorem run_operations_single (t : ActiveTransfer) (op : Operation) :
    run_operations t [op] = ((apply_operation t op).state, (apply_operation t op).calls) := by
  simp [run_operations]

theorem run_three_sends (observer : Bool) (fd : Int) (surface : Nat) (n1 n2 n3 : Nat)
    (e1 e2 e3 : InputSendEntry) (h1 : publishable e1.event) (h2 : publishable e2.event)
    (h3 : publishable e3.event) :
    (run_operations (ActiveTransfer.create observer fd surface)
      [Operation.send n1 e1 status_t.OK, Operation.send n2 e2 status_t.OK,
       Operation.send n3 e3 status_t.OK]).1
      = { observer := observer, publisher_fd := fd, surface := surface, subscribed := true,
          pending_responses := [e1, e2, e3],
          send_timer := some (AlarmState.pending (n1 + input_send_timeout)) } ∧
    observer_calls (run_operations (ActiveTransfer.create observer fd surface)
      [Operation.send n1 e1 status_t.OK, Operation.send n2 e2 status_t.OK,
       Operation.send n3 e3 status_t.OK]).2 = [] := by
  have hs1 := fun now t => (send_ok_state now t e1 h1).1
  have hs2 := fun now t => (send_ok_state now t e2 h2).1
  have hs3 := fun now t => (send_ok_state now t e3 h3).1
  have hc1 := fun now t => (send_ok_state now t e1 h1).2.1
  have hc2 := fun now t => (send_ok_state now t e2 h2).2.1
  have hc3 := fun now t => (send_ok_state now t e3 h3).2.1
  simp [run_operations, apply_operation, hs1, hs2, hs3, hc1, hc2, hc3, observer_calls_append,
    ActiveTransfer.create, observer_calls_nil]

/-- C16, as the code has it: on a fresh transfer, after three sends of key, touch or
pointer events E1, E2, E3 whose publishes return OK (the id of E1 differing from that of
E2), acknowledging E2 leaves pending [E1, E3] with the timer armed; a timeout then leaves
pending [E3]; acknowledging E3 then leaves pending empty. When an observer is installed
the observer calls of the whole run are exactly succeeded(E2, consumed),
failed(E1, no_response_received), succeeded(E3, consumed), in that order, each made by
the step named; when the observer pointer is null no observer call is made. -/
theorem out_of_order_scenario (observer : Bool) (fd : Int) (surface : Nat)
    (n1 n2 n3 n4 n5 n6 : Nat) (e1 e2 e3 : InputSendEntry)
    (h1 : publishable e1.event) (h2 : publishable e2.event) (h3 : publishable e3.event)
    (h_distinct : e1.sequence_id ≠ e2.sequence_id)
    (h_range : e1.sequence_id < UINT32_MODULUS) :
    (run_operations (ActiveTransfer.create observer fd surface)
      ([Operation.send n1 e1 status_t.OK, Operation.send n2 e2 status_t.OK,
        Operation.send n3 e3 status_t.OK] ++
       [Operation.acknowledge n4 e2.sequence_id true])).1.pending_responses = [e1, e3] ∧
    armed (run_operations (ActiveTransfer.create observer fd surface)
      ([Operation.send n1 e1 status_t.OK, Operation.send n2 e2 status_t.OK,
        Operation.send n3 e3 status_t.OK] ++
       [Operation.acknowledge n4 e2.sequence_id true])).1 = true ∧
    observer_calls (run_operations (ActiveTransfer.create observer fd surface)
      ([Operation.send n1 e1 status_t.OK, Operation.send n2 e2 status_t.OK,
        Operation.send n3 e3 status_t.OK] ++
       [Operation.acknowledge n4 e2.sequence_id true])).2
      = (if observer then
          [ObserverCall.send_suceeded e2.event surface InputResponse.consumed]
         else []) ∧
    (run_operations (ActiveTransfer.create observer fd surface)
      ([Operation.send n1 e1 status_t.OK, Operation.send n2 e2 status_t.OK,
        Operation.send n3 e3 status_t.OK] ++
       [Operation.acknowledge n4 e2.sequence_id true, Operation.timeout n5])).1.pending_responses
      = [e3] ∧
    observer_calls (run_operations (ActiveTransfer.create observer fd surface)
      ([Operation.send n1 e1 status_t.OK, Operation.send n2 e2 status_t.OK,
        Operation.send n3 e3 status_t.OK] ++
       [Operation.acknowledge n4 e2.sequence_id true, Operation.timeout n5])).2
      = (if observer then
          [ObserverCall.send_suceeded e2.event surface InputResponse.consumed,
           ObserverCall.send_failed e1.event surface FailureReason.no_response_received]
         else []) ∧
    (run_operations (ActiveTransfer.create observer fd surface)
      ([Operation.send n1 e1 status_t.OK, Operation.send n2 e2 status_t.OK,
        Operation.send n3 e3 status_t.OK] ++
       [Operation.acknowledge n4 e2.sequence_id true, Operation.timeout n5,
        Operation.acknowledge n6 e3.sequence_id true])).1.pending_responses = [] ∧
    observer_calls (run_operations (ActiveTransfer.create observer fd surface)
      ([Operation.send n1 e1 status_t.OK, Operation.send n2 e2 status_t.OK,
        Operation.send n3 e3 status_t.OK] ++
       [Operation.acknowledge n4 e2.sequence_id true, Operation.timeout n5,
        Operation.acknowledge n6 e3.sequence_id true])).2
      = (if observer then
          [ObserverCall.send_suceeded e2.event surface InputResponse.consumed,
           ObserverCall.send_failed e1.event surface FailureReason.no_response_received,
           ObserverCall.send_suceeded e3.event surface InputResponse.consumed]
         else []) := by
  obtain ⟨hsent, hsent_calls⟩ := run_three_sends observer fd surface n1 n2 n3 e1 e2 e3 h1 h2 h3
  have hne : (e1.sequence_id == e2.sequence_id) = false := by simpa using h_distinct
  -- the acknowledgement of E2
  have hfind2 : ([e1, e2, e3] : List InputSendEntry).find?
      (fun entry => entry.sequence_id == e2.sequence_id) = some e2 := by
    simp [List.find?_cons, hne]
  have herase2 : ([e1, e2, e3] : List InputSendEntry).eraseP
      (fun entry => entry.sequence_id == e2.sequence_id) = [e1, e3] := by
    simp [List.eraseP_cons, hne]
  obtain ⟨ha, ha_calls, _⟩ := on_finish_signal_found n4
    { observer := observer, publisher_fd := fd, surface := surface, subscribed := true,
      pending_responses := [e1, e2, e3],
      send_timer := some (AlarmState.pending (n1 + input_send_timeout)) }
    e2.sequence_id true e2 hfind2
  simp only [herase2] at ha
  -- the timeout
  obtain ⟨hb, hb_calls, _⟩ := on_response_timeout_front n5
    { observer := observer, publisher_fd := fd, surface := surface, subscribed := true,
      pending_responses := [e1, e3],
      send_timer := some (AlarmState.pending (n4 + input_send_timeout)) }
    e1 [e3] rfl h_range
  -- the acknowledgement of E3
  have hfind3 : ([e3] : List InputSendEntry).find?
      (fun entry => entry.sequence_id == e3.sequence_id) = some e3 := by
    simp
  obtain ⟨hc, hc_calls, _⟩ := on_finish_signal_found n6
    { observer := observer, publisher_fd := fd, surface := surface, subscribed := true,
      pending_responses := [e3],
      send_timer := some (AlarmState.pending (n5 + input_send_timeout)) }
    e3.sequence_id true e3 hfind3
  simp only [List.isEmpty_cons, Bool.false_eq_true, if_false, List.isEmpty_nil, if_true,
    List.eraseP_cons_of_pos, beq_self_eq_true] at ha hb hc
  simp only [run_operations_append]
  generalize run_operations (ActiveTransfer.create observer fd surface)
    [Operation.send n1 e1 status_t.OK, Operation.send n2 e2 status_t.OK,
     Operation.send n3 e3 status_t.OK] = sent at hsent hsent_calls ⊢
  obtain ⟨sent_state, sent_calls⟩ := sent
  simp only at hsent hsent_calls
  subst hsent
  simp only [run_operations, apply_operation, List.nil_append, List.append_nil,
    observer_calls_append, hsent_calls, ha, ha_calls, hb, hb_calls, hc, hc_calls]
  cases observer <;> simp [armed, observer_calls]

theorem out_of_order_scenario_witness :
    publishable (key_entry 1).event ∧ publishable (key_entry 2).event ∧
    publishable (key_entry 3).event ∧ (key_entry 1).sequence_id ≠ (key_entry 2).sequence_id ∧
    (key_entry 1).sequence_id < UINT32_MODULUS ∧
    observer_calls (run_operations (ActiveTransfer.create true 7 99)
      ([Operation.send 0 (key_entry 1) status_t.OK, Operation.send 10 (key_entry 2) status_t.OK,
        Operation.send 20 (key_entry 3) status_t.OK] ++
       [Operation.acknowledge 30 (key_entry 2).sequence_id true, Operation.timeout 5030,
        Operation.acknowledge 5040 (key_entry 3).sequence_id true])).2
      = (if true then
          [ObserverCall.send_suceeded (key_entry 2).event 99 InputResponse.consumed,
           ObserverCall.send_failed (key_entry 1).event 99 FailureReason.no_response_received,
           ObserverCall.send_suceeded (key_entry 3).event 99 InputResponse.consumed]
         else []) :=
  ⟨by decide, by decide, by decide, by decide, by decide,
    (out_of_order_scenario true 7 99 0 10 20 30 5030 5040 (key_entry 1) (key_entry 2)
      (key_entry 3) (by decide) (by decide) (by decide) (by decide) (by decide)).2.2.2.2.2.2⟩

/-- C16 fails as stated: on a fresh transfer whose observer pointer is null the run ends
with an empty pending sequence but no observer call is made, not the three reports. -/
theorem out_of_order_scenario_counterexample :
    (run_operations (ActiveTransfer.create false 7 99)
      [Operation.send 0 (key_entry 1) status_t.OK, Operation.send 10 (key_entry 2) status_t.OK,
       Operation.send 20 (key_entry 3) status_t.OK,
       Operation.acknowledge 30 2 true, Operation.timeout 5030,
       Operation.acknowledge 5040 3 true]).1.pending_responses = [] ∧
    observer_calls (run_operations (ActiveTransfer.create false 7 99)
      [Operation.send 0 (key_entry 1) status_t.OK, Operation.send 10 (key_entry 2) status_t.OK,
       Operation.send 20 (key_entry 3) status_t.OK,
       Operation.acknowledge 30 2 true, Operation.timeout 5030,
       Operation.acknowledge 5040 3 true]).2 = [] ∧
    observer_calls (run_operations (ActiveTransfer.create false 7 99)
      [Operation.send 0 (key_entry 1) status_t.OK, Operation.send 10 (key_entry 2) status_t.OK,
       Operation.send 20 (key_entry 3) status_t.OK,
       Operation.acknowledge 30 2 true, Operation.timeout 5030,
       Operation.acknowledge 5040 3 true]).2
      ≠ [ObserverCall.send_suceeded (key_entry 2).event 99 InputResponse.consumed,
         ObserverCall.send_failed (key_entry 1).event 99 FailureReason.no_response_received,
         ObserverCall.send_suceeded (key_entry 3).event 99 InputResponse.consumed] := by
  decide

/-! ## The timer -/

theorem rearms_self (t : ActiveTransfer) : rearms t t = false := by
  simp [rearms]

theorem unqueue_entry_find_none (now : Nat) (t : ActiveTransfer) (sequence_id : Nat)
    (execute_on_entry : InputSendEntry → List Call)
    (h : t.pending_responses.find? (fun entry => entry.sequence_id == sequence_id) = none) :
    unqueue_entry now t sequence_id execute_on_entry = (t, []) := by
  unfold unqueue_entry
  rw [h]

theorem length_eraseP_of_find (pending : List InputSendEntry) (sequence_id : Nat)
    (result : InputSendEntry)
    (h : pending.find? (fun entry => entry.sequence_id == sequence_id) = some result) :
    (pending.eraseP (fun entry => entry.sequence_id == sequence_id)).length + 1
      = pending.length := by
  obtain ⟨before, after, hsplit, _, _, herase⟩ := find_eraseP_split _ _ _ h
  rw [herase, hsplit]
  simp
  omega

theorem unqueue_entry_timer (now : Nat) (t : ActiveTransfer) (sequence_id : Nat)
    (execute_on_entry : InputSendEntry → List Call) (last : Nat)
    (h : t.pending_responses ≠ [] →
      t.send_timer = some (AlarmState.pending (last + input_send_timeout))) :
    (unqueue_entry now t sequence_id execute_on_entry).1.pending_responses ≠ [] →
    (unqueue_entry now t sequence_id execute_on_entry).1.send_timer
      = some (AlarmState.pending
          ((if rearms t (unqueue_entry now t sequence_id execute_on_entry).1 then now else last)
            + input_send_timeout)) := by
  cases hf : t.pending_responses.find? (fun entry => entry.sequence_id == sequence_id) with
  | none =>
    rw [unqueue_entry_find_none now t sequence_id execute_on_entry hf]
    simpa [rearms_self] using h
  | some result =>
    have hlen := length_eraseP_of_find _ _ _ hf
    rw [unqueue_entry_state_found now t sequence_id execute_on_entry result hf]
    intro hne
    have hne2 : (t.pending_responses.eraseP
        (fun entry => entry.sequence_id == sequence_id)).isEmpty = false := by
      simpa [List.isEmpty_iff] using hne
    have hlt : (t.pending_responses.eraseP
        (fun entry => entry.sequence_id == sequence_id)).length < t.pending_responses.length := by
      omega
    simp [rearms, hne2, hlt]

theorem apply_operation_timer (t : ActiveTransfer) (op : Operation) (last : Nat)
    (h : t.pending_responses ≠ [] →
      t.send_timer = some (AlarmState.pending (last + input_send_timeout))) :
    (apply_operation t op).state.pending_responses ≠ [] →
    (apply_operation t op).state.send_timer
      = some (AlarmState.pending
          ((if rearms t (apply_operation t op).state then op.time else last)
            + input_send_timeout)) := by
  cases op with
  | send now entry error_status =>
    simp only [apply_operation, Operation.time]
    by_cases hp : publishable entry.event
    · cases error_status with
      | OK =>
        rw [(send_ok_state now t entry hp).1]
        cases hl : t.pending_responses with
        | nil => simp [rearms, hl]
        | cons front rest =>
          have := h (by simp [hl])
          simp [rearms, hl, this]
      | WOULD_BLOCK =>
        obtain ⟨published, hpub⟩ := publish_calls_isSome entry hp
        simpa [send, hp.1, hpub, rearms_self] using h
      | DEAD_OBJECT =>
        obtain ⟨published, hpub⟩ := publish_calls_isSome entry hp
        simpa [send, hp.1, hpub, rearms_self] using h
      | other_error =>
        obtain ⟨published, hpub⟩ := publish_calls_isSome entry hp
        simpa [send, hp.1, hpub, rearms_self] using h
    · have hstate : (send now t entry error_status).state = t := by
        unfold send
        by_cases hi : mir_event_get_type entry.event = MirEventType.mir_event_type_input
        · have hk : publish_calls entry = none := by
            unfold publish_calls
            unfold publishable at hp
            cases hk : mir_input_event_get_type entry.event <;> simp_all
          simp [hi, hk]
        · simp [hi]
      rw [hstate]
      simpa [rearms_self] using h
  | acknowledge now sequence handled =>
    simp only [apply_operation, Operation.time, on_finish_signal, if_true]
    exact unqueue_entry_timer now t sequence _ last h
  | timeout now =>
    simp only [apply_operation, Operation.time]
    cases hl : t.pending_responses with
    | nil =>
      rw [on_response_timeout_empty now t hl]
      simp [hl]
    | cons front rest =>
      simp only [on_response_timeout, hl]
      exact unqueue_entry_timer now t _ _ last h

theorem run_operations_timer : ∀ (ops : List Operation) (t : ActiveTransfer) (last : Nat),
    (t.pending_responses ≠ [] →
      t.send_timer = some (AlarmState.pending (last + input_send_timeout))) →
    (run_operations t ops).1.pending_responses ≠ [] →
    (run_operations t ops).1.send_timer
      = some (AlarmState.pending (last_rearm_time t last ops + input_send_timeout))
  | [], t, last, h => by simpa [run_operations, last_rearm_time] using h
  | op :: rest, t, last, h => by
    have hstep := apply_operation_timer t op last h
    have hrest := run_operations_timer rest _ _ hstep
    simpa [run_operations, last_rearm_time] using hrest

/-- C17, as the code has it: the timer is re-armed for five seconds from the time of the
call, not kept at the oldest entry's send time plus five seconds. In every state reached
from a fresh transfer by sends, acknowledgements and timeouts, if the pending sequence is
not empty the timer is pending with deadline equal to the time of the last operation
that either took the sequence from empty to non-empty or removed an entry and left it
non-empty, plus `input_send_timeout`. In particular a send onto an empty sequence arms
the timer for its own time plus the timeout, a send onto a non-empty sequence leaves the
timer as it is, and an acknowledgement that removes any entry (the oldest or a newer
one) while others remain moves the deadline to the time of the acknowledgement plus the
timeout. -/
theorem timer_deadline_follows_last_rearm (observer : Bool) (fd : Int) (surface : Nat)
    (start : Nat) (ops : List Operation) :
    ((run_operations (ActiveTransfer.create observer fd surface) ops).1.pending_responses ≠ [] →
      (run_operations (ActiveTransfer.create observer fd surface) ops).1.send_timer
        = some (AlarmState.pending
            (last_rearm_time (ActiveTransfer.create observer fd surface) start ops
              + input_send_timeout))) ∧
    (∀ (t : ActiveTransfer) now entry, publishable entry.event → t.pending_responses = [] →
      (send now t entry status_t.OK).state.send_timer
        = some (AlarmState.pending (now + input_send_timeout))) ∧
    (∀ (t : ActiveTransfer) now entry, publishable entry.event → t.pending_responses ≠ [] →
      (send now t entry status_t.OK).state.send_timer = t.send_timer) ∧
    (∀ (t : ActiveTransfer) now sequence_id handled,
      (∃ entry ∈ t.pending_responses, entry.sequence_id = sequence_id) →
      (on_finish_signal now t [⟨status_t.OK, sequence_id, handled⟩]).state.pending_responses
        ≠ [] →
      (on_finish_signal now t [⟨status_t.OK, sequence_id, handled⟩]).state.send_timer
        = some (AlarmState.pending (now + input_send_timeout))) := by
  refine ⟨?_, ?_, ?_, ?_⟩
  · exact run_operations_timer ops _ start (by simp [ActiveTransfer.create])
  · intro t now entry hp hempty
    rw [(send_ok_state now t entry hp).1]
    simp [hempty]
  · intro t now entry hp hne
    rw [(send_ok_state now t entry hp).1]
    cases hl : t.pending_responses with
    | nil => exact absurd hl hne
    | cons front rest => simp
  · intro t now sequence_id handled hmem
    obtain ⟨result, hfind⟩ := exists_find_of_mem t.pending_responses sequence_id hmem
    rw [(on_finish_signal_found now t sequence_id handled result hfind).1]
    intro hne
    have hne2 : (t.pending_responses.eraseP
        (fun entry => entry.sequence_id == sequence_id)).isEmpty = false := by
      simpa [List.isEmpty_iff] using hne
    simp [hne2]

theorem timer_deadline_follows_last_rearm_witness :
    (run_operations (ActiveTransfer.create true 7 99)
      [Operation.send 0 (key_entry 1) status_t.OK, Operation.send 1000 (key_entry 2) status_t.OK,
       Operation.acknowledge 4000 2 true]).1.pending_responses ≠ [] ∧
    (run_operations (ActiveTransfer.create true 7 99)
      [Operation.send 0 (key_entry 1) status_t.OK, Operation.send 1000 (key_entry 2) status_t.OK,
       Operation.acknowledge 4000 2 true]).1.send_timer
      = some (AlarmState.pending
          (last_rearm_time (ActiveTransfer.create true 7 99) 0
            [Operation.send 0 (key_entry 1) status_t.OK,
             Operation.send 1000 (key_entry 2) status_t.OK,
             Operation.acknowledge 4000 2 true]
            + input_send_timeout)) :=
  ⟨by decide,
    (timer_deadline_follows_last_rearm true 7 99 0
      [Operation.send 0 (key_entry 1) status_t.OK, Operation.send 1000 (key_entry 2) status_t.OK,
       Operation.acknowledge 4000 2 true]).1 (by decide)⟩

/-- C17 fails as stated: E1 is sent at time 0 and E2 at time 1000; after both sends the
timer is due at 5000. The acknowledgement of the newer entry E2 at time 4000 leaves E1
pending and moves the deadline to 9000, which is not the send time of E1 plus the
timeout. -/
theorem timer_deadline_follows_last_rearm_counterexample :
    (run_operations (ActiveTransfer.create true 7 99)
      [Operation.send 0 (key_entry 1) status_t.OK,
       Operation.send 1000 (key_entry 2) status_t.OK]).1.send_timer
      = some (AlarmState.pending 5000) ∧
    (run_operations (ActiveTransfer.create true 7 99)
      [Operation.send 0 (key_entry 1) status_t.OK, Operation.send 1000 (key_entry 2) status_t.OK,
       Operation.acknowledge 4000 2 true]).1.pending_responses = [key_entry 1] ∧
    (run_operations (ActiveTransfer.create true 7 99)
      [Operation.send 0 (key_entry 1) status_t.OK, Operation.send 1000 (key_entry 2) status_t.OK,
       Operation.acknowledge 4000 2 true]).1.send_timer
      = some (AlarmState.pending 9000) ∧
    (run_operations (ActiveTransfer.create true 7 99)
      [Operation.send 0 (key_entry 1) status_t.OK, Operation.send 1000 (key_entry 2) status_t.OK,
       Operation.acknowledge 4000 2 true]).1.send_timer
      ≠ some (AlarmState.pending (0 + input_send_timeout)) := by
  decide

theorem unqueue_entry_calls_found (now : Nat) (t : ActiveTransfer) (sequence_id : Nat)
    (execute_on_entry : InputSendEntry → List Call) (result : InputSendEntry)
    (h : t.pending_responses.find? (fun entry => entry.sequence_id == sequence_id) = some result) :
    (unqueue_entry now t sequence_id execute_on_entry).2
      = (if (t.pending_responses.eraseP
              (fun entry => entry.sequence_id == sequence_id)).isEmpty then
          (if t.send_timer = none then [] else [Call.main_loop MainLoopCall.cancel])
         else
          (if t.send_timer = none then [Call.main_loop MainLoopCall.create_alarm] else [])
            ++ [Call.main_loop (MainLoopCall.reschedule_in input_send_timeout)])
        ++ execute_on_entry result := by
  unfold unqueue_entry
  rw [h]
  dsimp only
  split
  · next he =>
    unfold cancel_timer
    cases ht : t.send_timer <;> simp_all
  · next he =>
    unfold update_timer
    simp_all

theorem armed_after_removal (now : Nat) (t : ActiveTransfer) (remaining : List InputSendEntry) :
    armed { t with
        pending_responses := remaining,
        send_timer :=
          if remaining.isEmpty then t.send_timer.map fun _ => AlarmState.cancelled
          else some (AlarmState.pending (now + input_send_timeout)) } = true
      ↔ remaining ≠ [] := by
  cases remaining with
  | nil => cases ht : t.send_timer <;> simp [armed, ht]
  | cons front rest => simp [armed]

/-- C18: for every transfer, an acknowledgement that removes an entry leaves the timer
armed if and only if the pending sequence is still non-empty, so it cancels the timer
exactly when the sequence becomes empty; in particular with at least two pending
entries the acknowledgement of any of them (the most recently sent included) leaves the
timer armed. The same holds when `on_response_timeout` removes the oldest entry. At the
level of calls: `cancel` is called on the alarm only if the sequence became empty, and
it is called whenever the sequence became empty and the alarm exists. -/
theorem removal_cancels_timer_iff_empty (now : Nat) (t : ActiveTransfer) :
    (∀ sequence_id handled,
      (∃ entry ∈ t.pending_responses, entry.sequence_id = sequence_id) →
      (armed (on_finish_signal now t [⟨status_t.OK, sequence_id, handled⟩]).state = true ↔
        (on_finish_signal now t [⟨status_t.OK, sequence_id, handled⟩]).state.pending_responses
          ≠ []) ∧
      (2 ≤ t.pending_responses.length →
        armed (on_finish_signal now t [⟨status_t.OK, sequence_id, handled⟩]).state = true) ∧
      (Call.main_loop MainLoopCall.cancel
          ∈ (on_finish_signal now t [⟨status_t.OK, sequence_id, handled⟩]).calls →
        (on_finish_signal now t [⟨status_t.OK, sequence_id, handled⟩]).state.pending_responses
          = []) ∧
      (t.send_timer ≠ none →
        (on_finish_signal now t [⟨status_t.OK, sequence_id, handled⟩]).state.pending_responses
          = [] →
        Call.main_loop MainLoopCall.cancel
          ∈ (on_finish_signal now t [⟨status_t.OK, sequence_id, handled⟩]).calls)) ∧
    (∀ front rest, t.pending_responses = front :: rest →
      front.sequence_id < UINT32_MODULUS →
      (on_response_timeout now t).state.pending_responses = rest ∧
      (armed (on_response_timeout now t).state = true ↔ rest ≠ []) ∧
      (Call.main_loop MainLoopCall.cancel ∈ (on_response_timeout now t).calls → rest = []) ∧
      (t.send_timer ≠ none → rest = [] →
        Call.main_loop MainLoopCall.cancel ∈ (on_response_timeout now t).calls)) := by
  constructor
  · intro sequence_id handled hmem
    obtain ⟨result, hfind⟩ := exists_find_of_mem t.pending_responses sequence_id hmem
    have hlen := length_eraseP_of_find _ _ _ hfind
    have hstate := (on_finish_signal_found now t sequence_id handled result hfind).1
    have hcalls := unqueue_entry_calls_found now t sequence_id
      (fun entry => if t.observer then
        [Call.observer (ObserverCall.send_suceeded entry.event t.surface
          (if handled then InputResponse.consumed else InputResponse.not_consumed))]
       else []) result hfind
    have harmed := armed_after_removal now t
      (t.pending_responses.eraseP (fun entry => entry.sequence_id == sequence_id))
    rw [hstate]
    refine ⟨harmed, ?_, ?_, ?_⟩
    · intro htwo
      rw [harmed]
      intro hnil
      rw [hnil] at hlen
      simp at hlen
      omega
    · intro hcancel
      simp only [on_finish_signal, if_true, hcalls] at hcancel
      cases he : t.pending_responses.eraseP (fun entry => entry.sequence_id == sequence_id) with
      | nil => rfl
      | cons front rest =>
        rw [he] at hcancel
        cases ho : t.observer <;> cases hn : t.send_timer <;> simp [ho, hn] at hcancel
    · intro htimer hnil
      simp only at hnil
      simp only [on_finish_signal, if_true, hcalls, hnil]
      simp [htimer]
  · intro front rest hl h_range
    have hround := to_uint32_t_to_int front.sequence_id h_range
    have hfind : t.pending_responses.find?
        (fun entry => entry.sequence_id == front.sequence_id) = some front := by
      rw [hl]
      simp
    have herase : t.pending_responses.eraseP
        (fun entry => entry.sequence_id == front.sequence_id) = rest := by
      rw [hl]
      simp
    have hstate := (on_response_timeout_front now t front rest hl h_range).1
    have hcalls := unqueue_entry_calls_found now t front.sequence_id
      (fun entry => if t.observer then
        [Call.observer (ObserverCall.send_failed entry.event t.surface
          FailureReason.no_response_received)]
       else []) front hfind
    rw [herase] at hcalls
    rw [hstate]
    refine ⟨rfl, armed_after_removal now t rest, ?_, ?_⟩
    · intro hcancel
      simp only [on_response_timeout, hl, hround, hcalls] at hcancel
      cases rest with
      | nil => rfl
      | cons second others =>
        cases ho : t.observer <;> cases hn : t.send_timer <;> simp [ho, hn] at hcancel
    · intro htimer hnil
      simp only [on_response_timeout, hl, hround, hcalls, hnil]
      simp [htimer]

theorem removal_cancels_timer_iff_empty_witness :
    (∃ entry ∈ (sample_transfer true [key_entry 1, key_entry 2]).pending_responses,
      entry.sequence_id = 2) ∧
    2 ≤ (sample_transfer true [key_entry 1, key_entry 2]).pending_responses.length ∧
    armed (on_finish_signal 10 (sample_transfer true [key_entry 1, key_entry 2])
      [⟨status_t.OK, 2, true⟩]).state = true :=
  ⟨⟨key_entry 2, by decide, rfl⟩, by decide,
    ((removal_cancels_timer_iff_empty 10 (sample_transfer true [key_entry 1, key_entry 2])).1
      2 true ⟨key_entry 2, by decide, rfl⟩).2.1 (by decide)⟩

/-! ## After teardown -/

/-- C19, as the code has it: the code keeps no torn-down state. After the teardown of a
transfer every further acknowledgement and every further timeout is a no-op: the
transfer stays as the teardown left it (pending sequence empty, unsubscribed, timer as
it was before the teardown), no observer call is made and nothing is thrown. A further
`send` of a key, touch or pointer event whose publish returns OK is not a no-op: it
queues the entry, registers the readiness handler again and arms the timer. -/
theorem after_teardown (t : ActiveTransfer) :
    (teardown t).state = { t with subscribed := false, pending_responses := [] } ∧
    (∀ now sequence_id handled,
      (on_finish_signal now (teardown t).state [⟨status_t.OK, sequence_id, handled⟩]).state
        = (teardown t).state ∧
      observer_calls
        (on_finish_signal now (teardown t).state [⟨status_t.OK, sequence_id, handled⟩]).calls
        = [] ∧
      (on_finish_signal now (teardown t).state [⟨status_t.OK, sequence_id, handled⟩]).thrown
        = none) ∧
    (∀ now, on_response_timeout now (teardown t).state
      = { state := (teardown t).state, calls := [], thrown := none }) ∧
    (∀ now entry, publishable entry.event →
      (send now (teardown t).state entry status_t.OK).state.pending_responses = [entry] ∧
      (send now (teardown t).state entry status_t.OK).state.subscribed = true ∧
      armed (send now (teardown t).state entry status_t.OK).state = true ∧
      Call.main_loop (MainLoopCall.register_fd_handler t.publisher_fd)
        ∈ (send now (teardown t).state entry status_t.OK).calls) := by
  have hstate := teardown_state t
  refine ⟨hstate, ?_, ?_, ?_⟩
  · intro now sequence_id handled
    have hnone : ∀ entry ∈ (teardown t).state.pending_responses,
        entry.sequence_id ≠ sequence_id := by
      rw [hstate]
      simp
    obtain ⟨h1, h2⟩ := on_finish_signal_not_found now (teardown t).state sequence_id handled hnone
    exact ⟨h1, h2, by simp [on_finish_signal]⟩
  · intro now
    exact on_response_timeout_empty now _ (by rw [hstate])
  · intro now entry hp
    obtain ⟨published, hpub⟩ := publish_calls_isSome entry hp
    rw [(send_ok_state now _ entry hp).1, hstate]
    refine ⟨by simp, rfl, by simp [armed], ?_⟩
    simp [send, hp.1, hpub, enqueue_entry, subscribe]

theorem after_teardown_witness :
    publishable (key_entry 2).event ∧
    (send 10 (teardown (sample_transfer true [key_entry 1])).state (key_entry 2)
      status_t.OK).state.pending_responses = [key_entry 2] :=
  ⟨by decide, ((after_teardown (sample_transfer true [key_entry 1])).2.2.2 10 (key_entry 2)
    (by decide)).1⟩

/-- C19 fails as stated: a `send` after the teardown is not a no-op. The entry is queued,
the transfer is subscribed again (the readiness handler is registered) and the timer is
armed. -/
theorem after_teardown_counterexample :
    publishable (key_entry 2).event ∧
    (teardown (sample_transfer true [key_entry 1])).state.pending_responses = [] ∧
    (send 10 (teardown (sample_transfer true [key_entry 1])).state (key_entry 2)
      status_t.OK).state.pending_responses = [key_entry 2] ∧
    (send 10 (teardown (sample_transfer true [key_entry 1])).state (key_entry 2)
      status_t.OK).state.subscribed = true ∧
    Call.main_loop (MainLoopCall.register_fd_handler 7)
      ∈ (send 10 (teardown (sample_transfer true [key_entry 1])).state (key_entry 2)
          status_t.OK).calls ∧
    armed (send 10 (teardown (sample_transfer true [key_entry 1])).state (key_entry 2)
      status_t.OK).state = true := by
  decide

/-- C20, as the code has it: surface removal does not cancel the timer. For every sender
state and every registered transfer, `remove_transfer` (`unsubscribe` followed by
`on_surface_disappeared`) leaves `send_timer` of the removed transfer exactly as it was,
so a timer that was armed is still armed, and calls `cancel` on no alarm; the removed
transfer has an empty pending sequence, so an `on_response_timeout` on it changes nothing
and makes no call. -/
theorem remove_transfer_keeps_timer (s : InputSenderState) (fd : Int) (transfer : ActiveTransfer)
    (h : get_transfer s fd = some transfer) :
    (remove_transfer s fd).state.2
      = some { transfer with subscribed := false, pending_responses := [] } ∧
    (∀ removed, (remove_transfer s fd).state.2 = some removed →
      removed.send_timer = transfer.send_timer ∧
      armed removed = armed transfer ∧
      ∀ now, on_response_timeout now removed
        = { state := removed, calls := [], thrown := none }) ∧
    Call.main_loop MainLoopCall.cancel ∉ (remove_transfer s fd).calls := by
  obtain ⟨_, h2, _, _⟩ := remove_transfer_registered s fd transfer h
  rw [teardown_state] at h2
  refine ⟨h2, ?_, ?_⟩
  · intro removed hr
    rw [h2] at hr
    cases hr
    exact ⟨rfl, rfl, fun now => on_response_timeout_empty now _ rfl⟩
  · unfold remove_transfer
    rw [h]
    cases hs : transfer.subscribed <;> cases ho : transfer.observer <;>
      simp [ActiveTransfer.destroy, unsubscribe, on_surface_disappeared, hs, ho]

theorem remove_transfer_keeps_timer_witness :
    get_transfer (sample_state true [key_entry 1]) 7 = some (sample_transfer true [key_entry 1]) ∧
    Call.main_loop MainLoopCall.cancel ∉ (remove_transfer (sample_state true [key_entry 1]) 7).calls :=
  ⟨by decide, (remove_transfer_keeps_timer (sample_state true [key_entry 1]) 7
    (sample_transfer true [key_entry 1]) (by decide)).2.2⟩

/-- C20 fails as stated: the transfer registered for fd 7 has one pending entry and an
armed timer; after `remove_transfer` the removed transfer still has its timer armed. -/
theorem remove_transfer_keeps_timer_counterexample :
    get_transfer (sample_state true [key_entry 1]) 7 = some (sample_transfer true [key_entry 1]) ∧
    armed (sample_transfer true [key_entry 1]) = true ∧
    (remove_transfer (sample_state true [key_entry 1]) 7).state.2
      = some { sample_transfer true [key_entry 1] with
          subscribed := false, pending_responses := [] } ∧
    armed { sample_transfer true [key_entry 1] with
      subscribed := false, pending_responses := [] } = true := by
  decide

/-! ## Draining acknowledgements -/

theorem unqueue_entry_cases (now : Nat) (t : ActiveTransfer) (sequence_id : Nat)
    (execute_on_entry : InputSendEntry → List Call) :
    unqueue_entry now t sequence_id execute_on_entry = (t, []) ∨
    ∃ result,
      t.pending_responses.find? (fun entry => entry.sequence_id == sequence_id) = some result := by
  cases hf : t.pending_responses.find? (fun entry => entry.sequence_id == sequence_id) with
  | none => exact Or.inl (unqueue_entry_find_none now t sequence_id execute_on_entry hf)
  | some result => exact Or.inr ⟨result, rfl⟩

theorem unqueue_entry_fields (now : Nat) (t : ActiveTransfer) (sequence_id : Nat)
    (execute_on_entry : InputSendEntry → List Call) :
    (unqueue_entry now t sequence_id execute_on_entry).1.observer = t.observer ∧
    (unqueue_entry now t sequence_id execute_on_entry).1.surface = t.surface ∧
    (unqueue_entry now t sequence_id execute_on_entry).1.publisher_fd = t.publisher_fd ∧
    (unqueue_entry now t sequence_id execute_on_entry).1.subscribed = t.subscribed := by
  rcases unqueue_entry_cases now t sequence_id execute_on_entry with h | ⟨result, h⟩
  · rw [h]
    exact ⟨rfl, rfl, rfl, rfl⟩
  · rw [unqueue_entry_state_found now t sequence_id execute_on_entry result h]
    exact ⟨rfl, rfl, rfl, rfl⟩

theorem unqueue_entry_other_calls (now : Nat) (t : ActiveTransfer) (sequence_id : Nat)
    (execute_on_entry : InputSendEntry → List Call)
    (h : ∀ entry, publisher_calls (execute_on_entry entry) = [] ∧
      report_calls (execute_on_entry entry) = []) :
    publisher_calls (unqueue_entry now t sequence_id execute_on_entry).2 = [] ∧
    report_calls (unqueue_entry now t sequence_id execute_on_entry).2 = [] := by
  rcases unqueue_entry_cases now t sequence_id execute_on_entry with hn | ⟨result, hf⟩
  · rw [hn]
    exact ⟨rfl, rfl⟩
  · rw [unqueue_entry_calls_found now t sequence_id execute_on_entry result hf]
    obtain ⟨hp, hr⟩ := h result
    unfold publisher_calls report_calls at *
    constructor
    · rw [List.filterMap_append, hp]
      split <;> split <;> simp
    · rw [List.filterMap_append, hr]
      split <;> split <;> simp

theorem on_finish_signal_cons (now : Nat) (t : ActiveTransfer) (ack : Nat × Bool)
    (rest : List FinishedSignal) :
    (on_finish_signal now t (acknowledgement ack :: rest)).state
      = (on_finish_signal now (on_finish_signal now t [acknowledgement ack]).state rest).state ∧
    observer_calls (on_finish_signal now t (acknowledgement ack :: rest)).calls
      = observer_calls (on_finish_signal now t [acknowledgement ack]).calls ++
        observer_calls
          (on_finish_signal now (on_finish_signal now t [acknowledgement ack]).state rest).calls ∧
    report_calls (on_finish_signal now t (acknowledgement ack :: rest)).calls
      = ReportCall.received_event_finished_signal t.publisher_fd ack.1 ::
        report_calls
          (on_finish_signal now (on_finish_signal now t [acknowledgement ack]).state rest).calls ∧
    publisher_calls (on_finish_signal now t (acknowledgement ack :: rest)).calls
      = PublisherCall.receiveFinishedSignal ::
        publisher_calls
          (on_finish_signal now (on_finish_signal now t [acknowledgement ack]).state rest).calls ∧
    (on_finish_signal now t (acknowledgement ack :: rest)).thrown
      = (on_finish_signal now (on_finish_signal now t [acknowledgement ack]).state rest).thrown ∧
    (on_finish_signal now t [acknowledgement ack]).state.publisher_fd = t.publisher_fd := by
  have hother := unqueue_entry_other_calls now t ack.1
    (fun entry => if t.observer then
      [Call.observer (ObserverCall.send_suceeded entry.event t.surface
        (if ack.2 then InputResponse.consumed else InputResponse.not_consumed))]
     else [])
    (by intro entry; cases t.observer <;> simp [publisher_calls, report_calls])
  have hfields := unqueue_entry_fields now t ack.1
    (fun entry => if t.observer then
      [Call.observer (ObserverCall.send_suceeded entry.event t.surface
        (if ack.2 then InputResponse.consumed else InputResponse.not_consumed))]
     else [])
  simp only [acknowledgement] at *
  refine ⟨?_, ?_, ?_, ?_, ?_, ?_⟩
  · simp [on_finish_signal]
  · simp [on_finish_signal, observer_calls]
  · simp only [on_finish_signal, if_true, report_calls, List.filterMap_append] at hother ⊢
    rw [hother.2]
    simp
  · simp only [on_finish_signal, if_true, publisher_calls, List.filterMap_append] at hother ⊢
    rw [hother.1]
    simp
  · simp [on_finish_signal]
  · simp only [on_finish_signal, if_true]
    exact hfields.2.2.1

theorem on_finish_signal_stops (now : Nat) (t : ActiveTransfer) (last : FinishedSignal)
    (rest : List FinishedSignal) (h : last.status ≠ status_t.OK) :
    on_finish_signal now t (last :: rest)
      = { state := t, calls := [Call.publisher PublisherCall.receiveFinishedSignal],
          thrown := none } := by
  simp [on_finish_signal, h]

theorem run_acknowledgements_publisher_fd (now : Nat) :
    ∀ (acks : List (Nat × Bool)) (t : ActiveTransfer),
      (run_operations t
        (acks.map fun ack => Operation.acknowledge now ack.1 ack.2)).1.publisher_fd
        = t.publisher_fd
  | [], _ => rfl
  | ack :: acks, t => by
    have h := run_acknowledgements_publisher_fd now acks
      (on_finish_signal now t [acknowledgement ack]).state
    have hfd := (on_finish_signal_cons now t ack []).2.2.2.2.2
    simp only [List.map_cons, run_operations, apply_operation]
    simp only [acknowledgement] at h hfd
    rw [h, hfd]

/-- C21: `on_finish_signal` drains all available acknowledgements. When the channel
yields k acknowledgements and then a status other than OK, one invocation handles
exactly these k acknowledgements, in the order yielded, each against the state the
previous one left: the final state and the observer calls are those of the k
single-acknowledgement steps run in order, one `received_event_finished_signal` is
reported per acknowledgement, `receiveFinishedSignal` is called k + 1 times, nothing is
thrown, and whatever the channel would yield after the first non-OK status is not
read. -/
theorem on_finish_signal_drains (now : Nat) (acks : List (Nat × Bool)) (last : FinishedSignal)
    (rest : List FinishedSignal) (h : last.status ≠ status_t.OK) :
    ∀ t : ActiveTransfer,
    (on_finish_signal now t (acks.map acknowledgement ++ last :: rest)).state
      = (run_operations t (acks.map fun ack => Operation.acknowledge now ack.1 ack.2)).1 ∧
    observer_calls (on_finish_signal now t (acks.map acknowledgement ++ last :: rest)).calls
      = observer_calls
          (run_operations t (acks.map fun ack => Operation.acknowledge now ack.1 ack.2)).2 ∧
    report_calls (on_finish_signal now t (acks.map acknowledgement ++ last :: rest)).calls
      = acks.map (fun ack => ReportCall.received_event_finished_signal t.publisher_fd ack.1) ∧
    publisher_calls (on_finish_signal now t (acks.map acknowledgement ++ last :: rest)).calls
      = List.replicate (acks.length + 1) PublisherCall.receiveFinishedSignal ∧
    (on_finish_signal now t (acks.map acknowledgement ++ last :: rest)).thrown = none ∧
    on_finish_signal now t (acks.map acknowledgement ++ last :: rest)
      = on_finish_signal now t (acks.map acknowledgement ++ [last]) := by
  induction acks with
  | nil =>
    intro t
    simp [on_finish_signal_stops now t last _ h, run_operations, observer_calls, report_calls,
      publisher_calls]
  | cons ack acks ih =>
    intro t
    obtain ⟨h1, h2, h3, h4, h5, h6⟩ := ih (on_finish_signal now t [acknowledgement ack]).state
    obtain ⟨c1, c2, c3, c4, c5, c6⟩ := on_finish_signal_cons now t ack
      (acks.map acknowledgement ++ last :: rest)
    simp only [List.map_cons, List.cons_append]
    refine ⟨?_, ?_, ?_, ?_, ?_, ?_⟩
    · rw [c1, h1]
      simp [run_operations, apply_operation, acknowledgement]
    · rw [c2, h2]
      simp [run_operations, apply_operation, acknowledgement, observer_calls_append]
    · rw [c3, h3, c6]
    · rw [c4, h4]
      simp [List.replicate_succ]
    · rw [c5, h5]
    · have hrec : ∀ tail, on_finish_signal now t (acknowledgement ack :: tail)
          = { state := (on_finish_signal now
                (on_finish_signal now t [acknowledgement ack]).state tail).state,
              calls := [Call.publisher PublisherCall.receiveFinishedSignal,
                  Call.report (ReportCall.received_event_finished_signal t.publisher_fd ack.1)]
                ++ (unqueue_entry now t ack.1 fun entry =>
                    if t.observer then
                      [Call.observer (ObserverCall.send_suceeded entry.event t.surface
                        (if ack.2 then InputResponse.consumed
                         else InputResponse.not_consumed))]
                    else []).2
                ++ (on_finish_signal now
                    (on_finish_signal now t [acknowledgement ack]).state tail).calls,
              thrown := (on_finish_signal now
                (on_finish_signal now t [acknowledgement ack]).state tail).thrown } := by
        intro tail
        simp [on_finish_signal, acknowledgement]
      rw [hrec (acks.map acknowledgement ++ last :: rest),
        hrec (acks.map acknowledgement ++ [last]), h6]

theorem on_finish_signal_drains_witness :
    (FinishedSignal.mk status_t.WOULD_BLOCK 0 false).status ≠ status_t.OK ∧
    (on_finish_signal 10 (sample_transfer true [key_entry 1, key_entry 2, key_entry 3])
      ([(3, true), (1, false)].map acknowledgement ++
        FinishedSignal.mk status_t.WOULD_BLOCK 0 false :: [acknowledgement (2, true)])).state
      = (run_operations (sample_transfer true [key_entry 1, key_entry 2, key_entry 3])
          ([(3, true), (1, false)].map fun ack => Operation.acknowledge 10 ack.1 ack.2)).1 :=
  ⟨by decide, (on_finish_signal_drains 10 [(3, true), (1, false)]
    (FinishedSignal.mk status_t.WOULD_BLOCK 0 false) [acknowledgement (2, true)] (by decide)
    (sample_transfer true [key_entry 1, key_entry 2, key_entry 3])).1⟩

/-! ## Invariants of the states reached from a fresh transfer -/

theorem send_not_publishable (now : Nat) (t : ActiveTransfer) (entry : InputSendEntry)
    (error_status : status_t) (h : ¬ publishable entry.event) :
    (send now t entry error_status).state = t ∧ (send now t entry error_status).calls = [] := by
  unfold send
  by_cases hi : mir_event_get_type entry.event = MirEventType.mir_event_type_input
  · have hk : publish_calls entry = none := by
      unfold publish_calls
      unfold publishable at h
      cases hk : mir_input_event_get_type entry.event <;> simp_all
    simp [hi, hk]
  · simp [hi]

theorem send_not_ok (now : Nat) (t : ActiveTransfer) (entry : InputSendEntry)
    (error_status : status_t) (h : error_status ≠ status_t.OK) :
    (send now t entry error_status).state = t ∧
    Call.main_loop MainLoopCall.unregister_fd_handler ∉ (send now t entry error_status).calls := by
  by_cases hp : publishable entry.event
  · obtain ⟨published, hpub⟩ := publish_calls_isSome entry hp
    have hmem : Call.main_loop MainLoopCall.unregister_fd_handler ∉ published := by
      unfold publish_calls at hpub
      split at hpub <;> simp at hpub <;> subst hpub <;> simp
    cases error_status with
    | OK => exact absurd rfl h
    | WOULD_BLOCK => cases ho : t.observer <;> simp [send, hp.1, hpub, hmem, ho]
    | DEAD_OBJECT => cases ho : t.observer <;> simp [send, hp.1, hpub, hmem, ho]
    | other_error => simp [send, hp.1, hpub, hmem]
  · obtain ⟨h1, h2⟩ := send_not_publishable now t entry error_status hp
    rw [h1, h2]
    simp

theorem send_ok_no_unregister (now : Nat) (t : ActiveTransfer) (entry : InputSendEntry)
    (h : publishable entry.event) :
    Call.main_loop MainLoopCall.unregister_fd_handler
      ∉ (send now t entry status_t.OK).calls := by
  obtain ⟨published, hpub⟩ := publish_calls_isSome entry h
  have hmem : Call.main_loop MainLoopCall.unregister_fd_handler ∉ published := by
    unfold publish_calls at hpub
    split at hpub <;> simp at hpub <;> subst hpub <;> simp
  by_cases hs : t.subscribed = true <;> by_cases he : t.pending_responses.isEmpty = true <;>
    by_cases ht : t.send_timer = none <;>
    simp [send, h.1, hpub, enqueue_entry, subscribe, update_timer, hs, he, ht, hmem]

theorem unqueue_entry_no_unregister (now : Nat) (t : ActiveTransfer) (sequence_id : Nat)
    (execute_on_entry : InputSendEntry → List Call)
    (h : ∀ entry, Call.main_loop MainLoopCall.unregister_fd_handler ∉ execute_on_entry entry) :
    Call.main_loop MainLoopCall.unregister_fd_handler
      ∉ (unqueue_entry now t sequence_id execute_on_entry).2 := by
  rcases unqueue_entry_cases now t sequence_id execute_on_entry with hn | ⟨result, hf⟩
  · rw [hn]
    simp
  · rw [unqueue_entry_calls_found now t sequence_id execute_on_entry result hf]
    have := h result
    split <;> split <;> simp [this]

theorem unqueue_entry_pending_subset (now : Nat) (t : ActiveTransfer) (sequence_id : Nat)
    (execute_on_entry : InputSendEntry → List Call) :
    ∀ entry ∈ (unqueue_entry now t sequence_id execute_on_entry).1.pending_responses,
      entry ∈ t.pending_responses := by
  rcases unqueue_entry_cases now t sequence_id execute_on_entry with hn | ⟨result, hf⟩
  · rw [hn]
    exact fun _ h => h
  · rw [unqueue_entry_state_found now t sequence_id execute_on_entry result hf]
    exact fun entry h => List.eraseP_subset _ h

theorem apply_operation_subscription (t : ActiveTransfer) (op : Operation)
    (h : t.pending_responses ≠ [] → t.subscribed = true) :
    ((apply_operation t op).state.pending_responses ≠ [] →
      (apply_operation t op).state.subscribed = true) ∧
    (apply_operation t op).state.subscribed = (t.subscribed || op.queues) ∧
    Call.main_loop MainLoopCall.unregister_fd_handler ∉ (apply_operation t op).calls := by
  cases op with
  | send now entry error_status =>
    simp only [apply_operation]
    by_cases hp : publishable entry.event
    · by_cases hs : error_status = status_t.OK
      · subst hs
        refine ⟨?_, ?_, send_ok_no_unregister now t entry hp⟩
        · rw [(send_ok_state now t entry hp).1]
          intro _
          rfl
        · rw [(send_ok_state now t entry hp).1]
          simp [Operation.queues, hp]
      · obtain ⟨h1, h2⟩ := send_not_ok now t entry error_status hs
        rw [h1]
        refine ⟨h, ?_, h2⟩
        cases error_status <;> simp_all [Operation.queues]
    · obtain ⟨h1, h2⟩ := send_not_publishable now t entry error_status hp
      rw [h1, h2]
      refine ⟨h, ?_, by simp⟩
      cases error_status <;> simp [Operation.queues, hp]
  | acknowledge now sequence handled =>
    simp only [apply_operation, on_finish_signal, if_true, Operation.queues, Bool.or_false]
    have hfields := unqueue_entry_fields now t sequence
      (fun entry => if t.observer then
        [Call.observer (ObserverCall.send_suceeded entry.event t.surface
          (if handled then InputResponse.consumed else InputResponse.not_consumed))]
       else [])
    have hsub := unqueue_entry_pending_subset now t sequence
      (fun entry => if t.observer then
        [Call.observer (ObserverCall.send_suceeded entry.event t.surface
          (if handled then InputResponse.consumed else InputResponse.not_consumed))]
       else [])
    have hcalls := unqueue_entry_no_unregister now t sequence
      (fun entry => if t.observer then
        [Call.observer (ObserverCall.send_suceeded entry.event t.surface
          (if handled then InputResponse.consumed else InputResponse.not_consumed))]
       else [])
      (by intro entry; cases t.observer <;> simp)
    refine ⟨?_, hfields.2.2.2, ?_⟩
    · intro hne
      rw [hfields.2.2.2]
      apply h
      intro hnil
      obtain ⟨entry, hentry⟩ := List.exists_mem_of_ne_nil _ hne
      have := hsub entry hentry
      rw [hnil] at this
      cases this
    · simpa using hcalls
  | timeout now =>
    simp only [apply_operation, Operation.queues, Bool.or_false]
    cases hl : t.pending_responses with
    | nil =>
      rw [on_response_timeout_empty now t hl]
      exact ⟨fun hne => absurd hl hne, rfl, by simp⟩
    | cons front rest =>
      simp only [on_response_timeout, hl]
      have hfields := unqueue_entry_fields now t (to_uint32_t (to_int front.sequence_id))
        (fun entry => if t.observer then
          [Call.observer (ObserverCall.send_failed entry.event t.surface
            FailureReason.no_response_received)]
         else [])
      have hcalls := unqueue_entry_no_unregister now t (to_uint32_t (to_int front.sequence_id))
        (fun entry => if t.observer then
          [Call.observer (ObserverCall.send_failed entry.event t.surface
            FailureReason.no_response_received)]
         else [])
        (by intro entry; cases t.observer <;> simp)
      refine ⟨?_, hfields.2.2.2, hcalls⟩
      intro _
      rw [hfields.2.2.2]
      exact h (by simp [hl])

theorem run_operations_subscription : ∀ (ops : List Operation) (t : ActiveTransfer),
    (t.pending_responses ≠ [] → t.subscribed = true) →
    ((run_operations t ops).1.pending_responses ≠ [] →
      (run_operations t ops).1.subscribed = true) ∧
    (run_operations t ops).1.subscribed = (t.subscribed || ops.any Operation.queues) ∧
    Call.main_loop MainLoopCall.unregister_fd_handler ∉ (run_operations t ops).2
  | [], t, h => by simpa [run_operations] using h
  | op :: rest, t, h => by
    obtain ⟨h1, h2, h3⟩ := apply_operation_subscription t op h
    obtain ⟨r1, r2, r3⟩ := run_operations_subscription rest _ h1
    refine ⟨by simpa [run_operations] using r1, ?_, ?_⟩
    · simp only [run_operations, r2, h2, List.any_cons, Bool.or_assoc]
    · simp only [run_operations, List.mem_append, not_or]
      exact ⟨h3, r3⟩

/-- C22, as the code has it: acknowledgements and timeouts never release the
subscription. In every state reached from a fresh transfer by sends, acknowledgements
and timeouts, a non-empty pending sequence implies that the transfer is subscribed, the
transfer is subscribed if and only if some send so far queued its entry (a key, touch or
pointer event whose publish returned OK), and `unregister_fd_handler` was never called;
so the transfer stays subscribed when an acknowledgement or a timeout removes the last
pending entry. -/
theorem subscription_kept_after_removals (observer : Bool) (fd : Int) (surface : Nat)
    (ops : List Operation) :
    ((run_operations (ActiveTransfer.create observer fd surface) ops).1.pending_responses ≠ [] →
      (run_operations (ActiveTransfer.create observer fd surface) ops).1.subscribed = true) ∧
    (run_operations (ActiveTransfer.create observer fd surface) ops).1.subscribed
      = ops.any Operation.queues ∧
    Call.main_loop MainLoopCall.unregister_fd_handler
      ∉ (run_operations (ActiveTransfer.create observer fd surface) ops).2 := by
  obtain ⟨h1, h2, h3⟩ := run_operations_subscription ops
    (ActiveTransfer.create observer fd surface) (by simp [ActiveTransfer.create])
  refine ⟨h1, ?_, h3⟩
  rw [h2]
  simp [ActiveTransfer.create]

theorem subscription_kept_after_removals_witness :
    (run_operations (ActiveTransfer.create true 7 99)
      [Operation.send 0 (key_entry 1) status_t.OK,
       Operation.send 5 (key_entry 2) status_t.OK,
       Operation.acknowledge 10 1 true]).1.pending_responses ≠ [] ∧
    (run_operations (ActiveTransfer.create true 7 99)
      [Operation.send 0 (key_entry 1) status_t.OK,
       Operation.send 5 (key_entry 2) status_t.OK,
       Operation.acknowledge 10 1 true]).1.subscribed = true :=
  ⟨by decide, (subscription_kept_after_removals true 7 99
      [Operation.send 0 (key_entry 1) status_t.OK,
       Operation.send 5 (key_entry 2) status_t.OK,
       Operation.acknowledge 10 1 true]).1 (by decide)⟩

/-- C22 fails as stated: after one send and the acknowledgement of its entry the pending
sequence is empty and the transfer is still subscribed; the same holds when a timeout
removes the entry. -/
theorem subscription_kept_after_removals_counterexample :
    (run_operations (ActiveTransfer.create true 7 99)
      [Operation.send 0 (key_entry 1) status_t.OK,
       Operation.acknowledge 10 1 true]).1.pending_responses = [] ∧
    (run_operations (ActiveTransfer.create true 7 99)
      [Operation.send 0 (key_entry 1) status_t.OK,
       Operation.acknowledge 10 1 true]).1.subscribed = true ∧
    (run_operations (ActiveTransfer.create true 7 99)
      [Operation.send 0 (key_entry 1) status_t.OK,
       Operation.timeout 5000]).1.pending_responses = [] ∧
    (run_operations (ActiveTransfer.create true 7 99)
      [Operation.send 0 (key_entry 1) status_t.OK,
       Operation.timeout 5000]).1.subscribed = true := by
  decide

theorem unqueue_entry_armed (now : Nat) (t : ActiveTransfer) (sequence_id : Nat)
    (execute_on_entry : InputSendEntry → List Call)
    (h : armed t = true ↔ t.pending_responses ≠ []) :
    armed (unqueue_entry now t sequence_id execute_on_entry).1 = true ↔
      (unqueue_entry now t sequence_id execute_on_entry).1.pending_responses ≠ [] := by
  rcases unqueue_entry_cases now t sequence_id execute_on_entry with hn | ⟨result, hf⟩
  · rw [hn]
    exact h
  · rw [unqueue_entry_state_found now t sequence_id execute_on_entry result hf]
    exact armed_after_removal now t _

theorem send_armed (now : Nat) (t : ActiveTransfer) (entry : InputSendEntry)
    (error_status : status_t) (h : armed t = true ↔ t.pending_responses ≠ []) :
    armed (send now t entry error_status).state = true ↔
      (send now t entry error_status).state.pending_responses ≠ [] := by
  by_cases hp : publishable entry.event
  · by_cases hs : error_status = status_t.OK
    · subst hs
      rw [(send_ok_state now t entry hp).1]
      cases hl : t.pending_responses with
      | nil => simp [armed]
      | cons front rest =>
        have harmed : armed t = true := h.2 (by simp [hl])
        unfold armed at harmed ⊢
        simpa using harmed
    · rw [(send_not_ok now t entry error_status hs).1]
      exact h
  · rw [(send_not_publishable now t entry error_status hp).1]
    exact h

theorem apply_operation_armed (t : ActiveTransfer) (op : Operation)
    (h : armed t = true ↔ t.pending_responses ≠ []) :
    armed (apply_operation t op).state = true ↔
      (apply_operation t op).state.pending_responses ≠ [] := by
  cases op with
  | send now entry error_status => exact send_armed now t entry error_status h
  | acknowledge now sequence handled =>
    simp only [apply_operation, on_finish_signal, if_true]
    exact unqueue_entry_armed now t sequence _ h
  | timeout now =>
    simp only [apply_operation]
    cases hl : t.pending_responses with
    | nil =>
      rw [on_response_timeout_empty now t hl]
      simpa [hl] using h
    | cons front rest =>
      simp only [on_response_timeout, hl]
      exact unqueue_entry_armed now t _ _ (by simpa [hl] using h)

theorem run_operations_armed : ∀ (ops : List Operation) (t : ActiveTransfer),
    (armed t = true ↔ t.pending_responses ≠ []) →
    (armed (run_operations t ops).1 = true ↔ (run_operations t ops).1.pending_responses ≠ [])
  | [], _, h => by simpa [run_operations] using h
  | op :: rest, t, h => by
    have hrest := run_operations_armed rest _ (apply_operation_armed t op h)
    simpa [run_operations] using hrest

theorem apply_operation_fired_armed (t : ActiveTransfer) (op : Operation)
    (h : armed t = true ↔ t.pending_responses ≠ [])
    (h_range : ∀ entry ∈ t.pending_responses, entry.sequence_id < UINT32_MODULUS)
    (h_op : ∀ now entry error_status, op = Operation.send now entry error_status →
      entry.sequence_id < UINT32_MODULUS) :
    (armed (apply_operation_fired t op).state = true ↔
      (apply_operation_fired t op).state.pending_responses ≠ []) ∧
    (∀ entry ∈ (apply_operation_fired t op).state.pending_responses,
      entry.sequence_id < UINT32_MODULUS) := by
  cases op with
  | send now entry error_status =>
    simp only [apply_operation_fired, apply_operation]
    refine ⟨send_armed now t entry error_status h, ?_⟩
    by_cases hp : publishable entry.event
    · by_cases hs : error_status = status_t.OK
      · subst hs
        rw [(send_ok_state now t entry hp).1]
        intro queued hq
        simp only [List.mem_append, List.mem_singleton] at hq
        rcases hq with hq | hq
        · exact h_range queued hq
        · rw [hq]
          exact h_op now entry status_t.OK rfl
      · rw [(send_not_ok now t entry error_status hs).1]
        exact h_range
    · rw [(send_not_publishable now t entry error_status hp).1]
      exact h_range
  | acknowledge now sequence handled =>
    simp only [apply_operation_fired, apply_operation, on_finish_signal, if_true]
    exact ⟨unqueue_entry_armed now t sequence _ h,
      fun entry hmem => h_range entry (unqueue_entry_pending_subset now t sequence _ entry hmem)⟩
  | timeout now =>
    simp only [apply_operation_fired]
    by_cases ha : armed t = true
    · simp only [ha, if_true, fire_timer]
      obtain ⟨front, rest, hl⟩ := List.exists_cons_of_ne_nil (h.1 ha)
      have hfront : front.sequence_id < UINT32_MODULUS := h_range front (by simp [hl])
      have hstate := (on_response_timeout_front now
        { t with send_timer := some AlarmState.triggered } front rest hl hfront).1
      rw [hstate]
      refine ⟨armed_after_removal now { t with send_timer := some AlarmState.triggered } rest,
        ?_⟩
      intro entry hmem
      exact h_range entry (by rw [hl]; exact List.mem_cons_of_mem _ hmem)
    · simp only [ha]
      exact ⟨h, h_range⟩

theorem run_operations_fired_armed : ∀ (ops : List Operation) (t : ActiveTransfer),
    (armed t = true ↔ t.pending_responses ≠ []) →
    (∀ entry ∈ t.pending_responses, entry.sequence_id < UINT32_MODULUS) →
    (∀ now entry error_status, Operation.send now entry error_status ∈ ops →
      entry.sequence_id < UINT32_MODULUS) →
    (armed (run_operations_fired t ops).1 = true ↔
      (run_operations_fired t ops).1.pending_responses ≠ [])
  | [], _, h, _, _ => by simpa [run_operations_fired] using h
  | op :: rest, t, h, h_range, h_ops => by
    obtain ⟨h1, h2⟩ := apply_operation_fired_armed t op h h_range
      (fun now entry error_status heq => h_ops now entry error_status (by simp [heq]))
    have hrest := run_operations_fired_armed rest _ h1 h2
      (fun now entry error_status hmem =>
        h_ops now entry error_status (List.mem_cons_of_mem _ hmem))
    simpa [run_operations_fired] using hrest

/-- C23: the timer invariant. In every state reached from a fresh transfer by sends,
acknowledgements and timeouts, once the operation has completed the timer is armed if
and only if the pending sequence is non-empty. This holds when `on_response_timeout` may
run at any time, and it holds when a timeout is taken only when the timer fires (the
alarm being pending before and triggered while the callback runs), the sequence ids of
the entries sent being `uint32_t` values. -/
theorem timer_armed_iff_pending (observer : Bool) (fd : Int) (surface : Nat)
    (ops : List Operation) :
    (armed (run_operations (ActiveTransfer.create observer fd surface) ops).1 = true ↔
      (run_operations (ActiveTransfer.create observer fd surface) ops).1.pending_responses
        ≠ []) ∧
    ((∀ now entry error_status, Operation.send now entry error_status ∈ ops →
        entry.sequence_id < UINT32_MODULUS) →
      (armed (run_operations_fired (ActiveTransfer.create observer fd surface) ops).1 = true ↔
        (run_operations_fired (ActiveTransfer.create observer fd surface) ops).1.pending_responses
          ≠ [])) := by
  have hfresh : armed (ActiveTransfer.create observer fd surface) = true ↔
      (ActiveTransfer.create observer fd surface).pending_responses ≠ [] := by
    simp [ActiveTransfer.create, armed]
  refine ⟨run_operations_armed ops _ hfresh, ?_⟩
  intro h_ops
  exact run_operations_fired_armed ops _ hfresh (by simp [ActiveTransfer.create]) h_ops

theorem timer_armed_iff_pending_witness :
    (∀ now entry error_status,
      Operation.send now entry error_status ∈
        [Operation.send 0 (key_entry 1) status_t.OK, Operation.send 5 (key_entry 2) status_t.OK,
         Operation.timeout 5000] →
      entry.sequence_id < UINT32_MODULUS) ∧
    (armed (run_operations_fired (ActiveTransfer.create true 7 99)
        [Operation.send 0 (key_entry 1) status_t.OK, Operation.send 5 (key_entry 2) status_t.OK,
         Operation.timeout 5000]).1 = true ↔
      (run_operations_fired (ActiveTransfer.create true 7 99)
        [Operation.send 0 (key_entry 1) status_t.OK, Operation.send 5 (key_entry 2) status_t.OK,
         Operation.timeout 5000]).1.pending_responses ≠ []) :=
  ⟨(by
      intro now entry error_status hmem
      simp only [List.mem_cons, Operation.send.injEq, List.mem_singleton, List.not_mem_nil,
        or_false] at hmem
      rcases hmem with ⟨_, rfl, _⟩ | ⟨_, rfl, _⟩ | hmem
      · decide
      · decide
      · cases hmem),
    (timer_armed_iff_pending true 7 99
      [Operation.send 0 (key_entry 1) status_t.OK, Operation.send 5 (key_entry 2) status_t.OK,
       Operation.timeout 5000]).2 (by
      intro now entry error_status hmem
      simp only [List.mem_cons, Operation.send.injEq, List.mem_singleton, List.not_mem_nil,
        or_false] at hmem
      rcases hmem with ⟨_, rfl, _⟩ | ⟨_, rfl, _⟩ | hmem
      · decide
      · decide
      · cases hmem)⟩

/-! ## Subscribe and unsubscribe -/

theorem subscribe_eq (t : ActiveTransfer) :
    subscribe t
      = ({ t with subscribed := true },
         if t.subscribed then []
         else [Call.main_loop (MainLoopCall.register_fd_handler t.publisher_fd)]) := by
  unfold subscribe
  cases hs : t.subscribed <;> simp [hs]
  cases t
  simp_all

theorem unsubscribe_eq (t : ActiveTransfer) :
    unsubscribe t
      = ({ t with subscribed := false },
         if t.subscribed then [Call.main_loop MainLoopCall.unregister_fd_handler] else []) := by
  unfold unsubscribe
  cases hs : t.subscribed <;> simp [hs]
  cases t
  simp_all

theorem run_subscriptions_alternating : ∀ (ops : List SubscriptionCall) (t : ActiveTransfer),
    alternating (!t.subscribed) (run_subscriptions t ops).2 = true
  | [], t => by simp [run_subscriptions, alternating]
  | SubscriptionCall.subscribe :: rest, t => by
    have h := run_subscriptions_alternating rest { t with subscribed := true }
    simp only [run_subscriptions, subscribe_eq]
    cases hs : t.subscribed
    · simpa [alternating] using h
    · simpa [hs] using h
  | SubscriptionCall.unsubscribe :: rest, t => by
    have h := run_subscriptions_alternating rest { t with subscribed := false }
    simp only [run_subscriptions, unsubscribe_eq]
    cases hs : t.subscribed
    · simpa [hs] using h
    · simpa [alternating] using h

theorem remove_transfer_unregister_count (s : InputSenderState) (fd : Int)
    (transfer : ActiveTransfer) (h : get_transfer s fd = some transfer) :
    List.count (Call.main_loop MainLoopCall.unregister_fd_handler) (remove_transfer s fd).calls
      = if transfer.subscribed then 1 else 0 := by
  unfold remove_transfer
  rw [h]
  cases hs : transfer.subscribed <;> cases ho : transfer.observer <;>
    simp [ActiveTransfer.destroy, unsubscribe, on_surface_disappeared, hs, ho, List.count_eq_zero]

/-- C24: in every sequence of `subscribe` and `unsubscribe` calls on one transfer the
trace consists of `register_fd_handler` and `unregister_fd_handler` calls that strictly
alternate, starting with a register when the transfer starts unsubscribed (as a fresh
one does). `subscribe` registers exactly on a false-to-true transition of `subscribed`
and `unsubscribe` unregisters exactly on a true-to-false transition, so unsubscribing an
unsubscribed transfer changes nothing and makes no call; and `remove_transfer`, whose
`unsubscribe` is followed by the one of the destructor, unregisters once when the
transfer was subscribed and not at all otherwise. -/
theorem subscription_calls_alternate (t : ActiveTransfer) (ops : List SubscriptionCall) :
    alternating (!t.subscribed) (run_subscriptions t ops).2 = true ∧
    (t.subscribed = false → alternating true (run_subscriptions t ops).2 = true) ∧
    subscribe t
      = ({ t with subscribed := true },
         if t.subscribed then []
         else [Call.main_loop (MainLoopCall.register_fd_handler t.publisher_fd)]) ∧
    unsubscribe t
      = ({ t with subscribed := false },
         if t.subscribed then [Call.main_loop MainLoopCall.unregister_fd_handler] else []) ∧
    (t.subscribed = false → unsubscribe t = (t, [])) ∧
    (∀ (s : InputSenderState) fd, get_transfer s fd = some t →
      List.count (Call.main_loop MainLoopCall.unregister_fd_handler) (remove_transfer s fd).calls
        = if t.subscribed then 1 else 0) := by
  refine ⟨run_subscriptions_alternating ops t, ?_, subscribe_eq t, unsubscribe_eq t, ?_, ?_⟩
  · intro hs
    have h := run_subscriptions_alternating ops t
    simpa [hs] using h
  · intro hs
    simp [unsubscribe, hs]
  · intro s fd h
    exact remove_transfer_unregister_count s fd t h

theorem subscription_calls_alternate_witness :
    (ActiveTransfer.create true 7 99).subscribed = false ∧
    alternating true (run_subscriptions (ActiveTransfer.create true 7 99)
      [SubscriptionCall.unsubscribe, SubscriptionCall.subscribe, SubscriptionCall.subscribe,
       SubscriptionCall.unsubscribe, SubscriptionCall.unsubscribe]).2 = true :=
  ⟨rfl, (subscription_calls_alternate (ActiveTransfer.create true 7 99)
      [SubscriptionCall.unsubscribe, SubscriptionCall.subscribe, SubscriptionCall.subscribe,
       SubscriptionCall.unsubscribe, SubscriptionCall.unsubscribe]).2.1 rfl⟩

/-! ## No duplicate report -/

theorem unqueue_entry_subperm (now : Nat) (t : ActiveTransfer) (sequence_id : Nat)
    (execute_on_entry : InputSendEntry → List Call)
    (h : ∀ entry, (observer_calls (execute_on_entry entry)).map ObserverCall.event
        = [entry.event] ∨ observer_calls (execute_on_entry entry) = []) :
    ((observer_calls (unqueue_entry now t sequence_id execute_on_entry).2).map ObserverCall.event
      ++ (unqueue_entry now t sequence_id execute_on_entry).1.pending_responses.map
          (fun entry => entry.event)).Subperm
      (t.pending_responses.map fun entry => entry.event) ∧
    (unqueue_entry now t sequence_id execute_on_entry).1.pending_responses.Sublist
      t.pending_responses := by
  rcases unqueue_entry_cases now t sequence_id execute_on_entry with hn | ⟨result, hf⟩
  · rw [hn]
    exact ⟨by simpa [observer_calls] using List.Subperm.refl _, List.Sublist.refl _⟩
  · obtain ⟨hpending, hcalls⟩ := unqueue_entry_found now t sequence_id execute_on_entry result hf
    obtain ⟨before, after, hsplit, _, _, herase⟩ := find_eraseP_split _ _ _ hf
    rw [hpending, hcalls, herase, hsplit]
    refine ⟨?_, by simp⟩
    rcases h result with hone | hnone
    · rw [hone]
      apply List.Perm.subperm
      simp only [List.map_append, List.map_cons, List.singleton_append]
      exact List.perm_middle.symm
    · rw [hnone]
      apply List.Sublist.subperm
      simp

theorem apply_removal_subperm (t : ActiveTransfer) (op : Removal) :
    ((observer_calls (apply_removal t op).calls).map ObserverCall.event
      ++ (apply_removal t op).state.pending_responses.map (fun entry => entry.event)).Subperm
      (t.pending_responses.map fun entry => entry.event) ∧
    (apply_removal t op).state.pending_responses.Sublist t.pending_responses := by
  cases op with
  | acknowledge now sequence handled =>
    have h := unqueue_entry_subperm now t sequence
      (fun entry => if t.observer then
        [Call.observer (ObserverCall.send_suceeded entry.event t.surface
          (if handled then InputResponse.consumed else InputResponse.not_consumed))]
       else [])
      (by intro entry; cases t.observer <;> simp [observer_calls, ObserverCall.event])
    simpa [apply_removal, on_finish_signal, observer_calls_append, observer_calls] using h
  | timeout now =>
    simp only [apply_removal]
    cases hl : t.pending_responses with
    | nil =>
      rw [on_response_timeout_empty now t hl]
      simp [observer_calls, hl]
    | cons front rest =>
      have h := unqueue_entry_subperm now t (to_uint32_t (to_int front.sequence_id))
        (fun entry => if t.observer then
          [Call.observer (ObserverCall.send_failed entry.event t.surface
            FailureReason.no_response_received)]
         else [])
        (by intro entry; cases t.observer <;> simp [observer_calls, ObserverCall.event])
      rw [hl] at h
      simpa [on_response_timeout, hl] using h
  | teardown =>
    simp only [apply_removal]
    rw [observer_calls_teardown, observer_calls_on_surface_disappeared, teardown_state]
    refine ⟨?_, by simp⟩
    cases t.observer
    · simp
    · apply List.Perm.subperm
      simp only [if_true, List.map_map, List.map_nil, List.append_nil, List.map_reverse]
      exact List.reverse_perm _

theorem run_removals_subperm : ∀ (ops : List Removal) (t : ActiveTransfer),
    ((observer_calls (run_removals t ops).2).map ObserverCall.event
      ++ (run_removals t ops).1.pending_responses.map (fun entry => entry.event)).Subperm
      (t.pending_responses.map fun entry => entry.event) ∧
    (run_removals t ops).1.pending_responses.Sublist t.pending_responses
  | [], t => by
    simp [run_removals, observer_calls]
    exact List.Subperm.refl _
  | op :: rest, t => by
    obtain ⟨h1, h2⟩ := apply_removal_subperm t op
    obtain ⟨r1, r2⟩ := run_removals_subperm rest (apply_removal t op).state
    refine ⟨?_, by simpa [run_removals] using r2.trans h2⟩
    simp only [run_removals, observer_calls_append, List.map_append, List.append_assoc]
    exact ((List.subperm_append_left _).2 r1).trans h1

/-- C26: no duplicate terminal report. For every transfer and every sequence of
acknowledgements, timeouts and teardowns, the entries still pending are a sublist of the
entries pending at the start (an entry once removed never comes back), the events of the
observer calls made together with the events of the entries still pending are, counted
with multiplicity, among the events of the entries pending at the start, so no entry is
reported more often than it was queued, and the number of observer calls plus the length
of the pending sequence never exceeds the number of entries pending at the start. -/
theorem no_duplicate_terminal_report (t : ActiveTransfer) (ops : List Removal) :
    (run_removals t ops).1.pending_responses.Sublist t.pending_responses ∧
    ((observer_calls (run_removals t ops).2).map ObserverCall.event
      ++ (run_removals t ops).1.pending_responses.map (fun entry => entry.event)).Subperm
      (t.pending_responses.map fun entry => entry.event) ∧
    (∀ event, List.count event ((observer_calls (run_removals t ops).2).map ObserverCall.event)
      ≤ List.count event (t.pending_responses.map fun entry => entry.event)) ∧
    (observer_calls (run_removals t ops).2).length
      + (run_removals t ops).1.pending_responses.length ≤ t.pending_responses.length := by
  obtain ⟨h1, h2⟩ := run_removals_subperm ops t
  refine ⟨h2, h1, ?_, ?_⟩
  · intro event
    have h := h1.count_le event
    rw [List.count_append] at h
    omega
  · have h := h1.length_le
    simpa using h

/-! ## Replacing a transfer -/

/-- C27: when `add_transfer` is called for an fd whose registered transfer is used for a
different surface, the table entry for that fd becomes a fresh transfer for the new
surface, with an empty pending sequence; every other key keeps its transfer, the set of
keys and the counter are unchanged, and nothing is thrown. The replaced transfer is only
destroyed: its destructor unregisters the readiness handler if it was subscribed, and no
observer call is made, so its pending entries are discarded without any report. -/
theorem add_transfer_replaces (s : InputSenderState) (fd : Int) (surface : Nat)
    (replaced : ActiveTransfer) (h : get_transfer s fd = some replaced)
    (h_other : used_for_surface replaced surface = false) :
    get_transfer (add_transfer s fd surface).state fd
      = some (ActiveTransfer.create s.observer fd surface) ∧
    (ActiveTransfer.create s.observer fd surface).pending_responses = [] ∧
    (ActiveTransfer.create s.observer fd surface).surface = surface ∧
    (∀ key, key ≠ fd →
      get_transfer (add_transfer s fd surface).state key = get_transfer s key) ∧
    (∀ key, (get_transfer (add_transfer s fd surface).state key).isSome
      = (get_transfer s key).isSome) ∧
    (add_transfer s fd surface).state.seq = s.seq ∧
    (add_transfer s fd surface).calls
      = (if replaced.subscribed then [Call.main_loop MainLoopCall.unregister_fd_handler]
         else []) ∧
    observer_calls (add_transfer s fd surface).calls = [] ∧
    (add_transfer s fd surface).thrown = none := by
  have hstate : add_transfer s fd surface
      = Outcome.mk
          (InputSenderState.mk s.observer s.seq
            (Function.update s.transfers fd (some (ActiveTransfer.create s.observer fd surface))))
          (unsubscribe replaced).2 none := by
    simp [add_transfer, h, h_other, ActiveTransfer.destroy]
  rw [hstate, unsubscribe_eq]
  refine ⟨by simp [get_transfer], rfl, rfl, ?_, ?_, rfl, rfl, ?_, rfl⟩
  · intro key hkey
    simp [get_transfer, Function.update_noteq hkey]
  · intro key
    by_cases hkey : key = fd
    · subst hkey
      simp [get_transfer] at h ⊢
      simp [h]
    · simp [get_transfer, Function.update_noteq hkey]
  · cases replaced.subscribed <;> simp [observer_calls]

theorem add_transfer_replaces_witness :
    get_transfer (sample_state true [key_entry 1, key_entry 2]) 7
      = some (sample_transfer true [key_entry 1, key_entry 2]) ∧
    used_for_surface (sample_transfer true [key_entry 1, key_entry 2]) 100 = false ∧
    get_transfer (add_transfer (sample_state true [key_entry 1, key_entry 2]) 7 100).state 7
      = some (ActiveTransfer.create (sample_state true [key_entry 1, key_entry 2]).observer
          7 100) ∧
    observer_calls (add_transfer (sample_state true [key_entry 1, key_entry 2]) 7 100).calls
      = [] :=
  ⟨by decide, by decide,
    (add_transfer_replaces (sample_state true [key_entry 1, key_entry 2]) 7 100
      (sample_transfer true [key_entry 1, key_entry 2]) (by decide) (by decide)).1,
    (add_transfer_replaces (sample_state true [key_entry 1, key_entry 2]) 7 100
      (sample_transfer true [key_entry 1, key_entry 2]) (by decide) (by decide)).2.2.2.2.2.2.2.1⟩

/-! ## Events that are not published -/

/-- C28: for every event whose type is not an input event `send` returns without any
call on a collaborator (no publish, no observer call, no report call), leaves the whole
transfer unchanged (pending sequence, subscription, timer) and throws nothing; for an
input event whose input type is none of key, touch and pointer it throws "unknown input
event type" before any call is made, the transfer being unchanged. -/
theorem send_without_publish (now : Nat) (t : ActiveTransfer) (entry : InputSendEntry)
    (error_status : status_t) :
    (mir_event_get_type entry.event ≠ MirEventType.mir_event_type_input →
      send now t entry error_status = { state := t, calls := [], thrown := none }) ∧
    (mir_event_get_type entry.event = MirEventType.mir_event_type_input →
      mir_input_event_get_type entry.event ≠ MirInputEventType.mir_input_event_type_key →
      mir_input_event_get_type entry.event ≠ MirInputEventType.mir_input_event_type_touch →
      mir_input_event_get_type entry.event ≠ MirInputEventType.mir_input_event_type_pointer →
      send now t entry error_status
        = { state := t, calls := [],
            thrown := some Exception.unknown_input_event_type }) := by
  constructor
  · intro h
    simp [send, h]
  · intro h hk ht hp
    have hnone : publish_calls entry = none := by
      unfold publish_calls
      cases hc : mir_input_event_get_type entry.event <;> simp_all
    simp [send, h, hnone]

theorem send_without_publish_witness :
    send 10 (sample_transfer true [key_entry 1])
      { sequence_id := 9,
        event := { event_type := MirEventType.not_input,
                   input_type := MirInputEventType.mir_input_event_type_key,
                   event_time := 0, payload := 0 },
        channel := { server_fd := 7 } } status_t.OK
      = { state := sample_transfer true [key_entry 1], calls := [], thrown := none } ∧
    send 10 (sample_transfer true [key_entry 1]) unknown_entry status_t.OK
      = { state := sample_transfer true [key_entry 1], calls := [],
          thrown := some Exception.unknown_input_event_type } :=
  ⟨(send_without_publish 10 (sample_transfer true [key_entry 1])
      { sequence_id := 9,
        event := { event_type := MirEventType.not_input,
                   input_type := MirInputEventType.mir_input_event_type_key,
                   event_time := 0, payload := 0 },
        channel := { server_fd := 7 } } status_t.OK).1 (by decide),
   (send_without_publish 10 (sample_transfer true [key_entry 1]) unknown_entry status_t.OK).2
      rfl (by decide) (by decide) (by decide)⟩

/-! ## The counter and the ids in a pending sequence -/

theorem send_pending_cases (now : Nat) (t : ActiveTransfer) (entry : InputSendEntry)
    (error_status : status_t) :
    (send now t entry error_status).state.pending_responses = t.pending_responses ∨
    (send now t entry error_status).state.pending_responses = t.pending_responses ++ [entry] := by
  by_cases hp : publishable entry.event
  · by_cases hs : error_status = status_t.OK
    · subst hs
      exact Or.inr (send_ok_pending now t entry hp)
    · rw [(send_not_ok now t entry error_status hs).1]
      exact Or.inl rfl
  · rw [(send_not_publishable now t entry error_status hp).1]
    exact Or.inl rfl

theorem pending_ids_not_consecutive :
    (get_transfer
      (send_event 0
        (send_event 0
          (send_event 0 (sample_state true []) (InputChannel.mk 7) (key_entry 0).event
            status_t.OK).state
          (InputChannel.mk 7) (key_entry 0).event status_t.WOULD_BLOCK).state
        (InputChannel.mk 7) (key_entry 0).event status_t.OK).state 7).map
      (fun transfer => transfer.pending_responses.map fun entry => entry.sequence_id)
      = some [6, 8] := by
  simp [send_event, get_transfer, next_seq, increment_until_nonzero_eq, UINT32_MODULUS,
    sample_state, sample_transfer, key_entry, sample_event, send, publish_calls,
    mir_event_get_type, mir_input_event_get_type, enqueue_entry, subscribe, update_timer]

/-- C29: `send_event` on a registered channel advances the sequence counter by exactly
one `next_seq` allocation, whatever the publish status and whatever the event: the
counter afterwards is the value `next_seq` returns, and the entry handed to `send`
(hence every publish and report call) carries that id; the transfer's pending sequence
is then either unchanged or extended at the end by that entry. On an unregistered
channel the counter is unchanged. So the ids in one pending sequence appear in
allocation order but need not be consecutive: after an OK, a WOULD_BLOCK and an OK
publish from counter 5 the pending ids are 6 and 8. -/
theorem send_event_advances_counter (now : Nat) (s : InputSenderState) (channel : InputChannel)
    (event : MirEvent) (error_status : status_t) :
    (∀ transfer, get_transfer s channel.server_fd = some transfer →
      (send_event now s channel event error_status).state.seq = (next_seq s).1 ∧
      (next_seq s).1 = increment_until_nonzero s.seq ∧
      (send_event now s channel event error_status).calls
        = (send now transfer ⟨(next_seq s).1, event, channel⟩ error_status).calls ∧
      get_transfer (send_event now s channel event error_status).state channel.server_fd
        = some (send now transfer ⟨(next_seq s).1, event, channel⟩ error_status).state ∧
      ((send now transfer ⟨(next_seq s).1, event, channel⟩ error_status).state.pending_responses
          = transfer.pending_responses ∨
        (send now transfer ⟨(next_seq s).1, event, channel⟩ error_status).state.pending_responses
          = transfer.pending_responses ++ [⟨(next_seq s).1, event, channel⟩])) ∧
    (get_transfer s channel.server_fd = none →
      (send_event now s channel event error_status).state.seq = s.seq) ∧
    (get_transfer
      (send_event 0
        (send_event 0
          (send_event 0 (sample_state true []) (InputChannel.mk 7) (key_entry 0).event
            status_t.OK).state
          (InputChannel.mk 7) (key_entry 0).event status_t.WOULD_BLOCK).state
        (InputChannel.mk 7) (key_entry 0).event status_t.OK).state 7).map
      (fun transfer => transfer.pending_responses.map fun entry => entry.sequence_id)
      = some [6, 8] := by
  refine ⟨?_, ?_, pending_ids_not_consecutive⟩
  · intro transfer h
    obtain ⟨h1, h2⟩ := send_event_registered now s channel event error_status transfer h
    refine ⟨h2, rfl, ?_, h1, send_pending_cases now transfer _ error_status⟩
    unfold send_event
    rw [h]
  · intro h
    simp [send_event, h]

theorem send_event_advances_counter_witness :
    get_transfer (sample_state true []) (InputChannel.mk 7).server_fd
      = some (sample_transfer true []) ∧
    (send_event 10 (sample_state true []) (InputChannel.mk 7) (key_entry 0).event
      status_t.DEAD_OBJECT).state.seq = (next_seq (sample_state true [])).1 ∧
    (next_seq (sample_state true [])).1 = increment_until_nonzero (sample_state true []).seq :=
  ⟨by decide,
    ((send_event_advances_counter 10 (sample_state true []) (InputChannel.mk 7)
      (key_entry 0).event status_t.DEAD_OBJECT).1 (sample_transfer true []) (by decide)).1,
    ((send_event_advances_counter 10 (sample_state true []) (InputChannel.mk 7)
      (key_entry 0).event status_t.DEAD_OBJECT).1 (sample_transfer true []) (by decide)).2.1⟩

/-- C30: `on_response_timeout` keeps the id of the oldest entry in an `int` and hands it
to `unqueue_entry` as a `uint32_t`. For every id from 1 to 2 ^ 32 - 1 this round trip
gives the id back: an id below 2 ^ 31 is stored as itself, an id at or above 2 ^ 31 is
stored as the negative number id - 2 ^ 32, and the conversion back reduces modulo
2 ^ 32. So the timeout removes the oldest entry whatever its id, also when the id is at
or above 2 ^ 31. -/
theorem timeout_id_round_trip (id : Nat) (h_low : 1 ≤ id) (h_high : id < UINT32_MODULUS) :
    to_uint32_t (to_int id) = id ∧
    (id < 2 ^ 31 → to_int id = (id : Int)) ∧
    (2 ^ 31 ≤ id → to_int id = (id : Int) - 2 ^ 32 ∧ to_int id < 0) ∧
    (∀ now (t : ActiveTransfer) front rest, t.pending_responses = front :: rest →
      front.sequence_id = id →
      (on_response_timeout now t).state.pending_responses = rest) := by
  refine ⟨to_uint32_t_to_int id h_high, ?_, ?_, ?_⟩
  · intro h
    unfold to_int
    unfold UINT32_MODULUS at *
    split <;> omega
  · intro h
    unfold to_int
    unfold UINT32_MODULUS at *
    split <;> omega
  · intro now t front rest hl hid
    have hstate := (on_response_timeout_front now t front rest hl (by rw [hid]; exact h_high)).1
    rw [hstate]

theorem timeout_id_round_trip_witness :
    1 ≤ 4000000000 ∧ 4000000000 < UINT32_MODULUS ∧
    to_uint32_t (to_int 4000000000) = 4000000000 ∧
    (on_response_timeout 10
      (sample_transfer true [key_entry 4000000000, key_entry 2])).state.pending_responses
      = [key_entry 2] :=
  ⟨by decide, by decide,
    (timeout_id_round_trip 4000000000 (by decide) (by decide)).1,
    (timeout_id_round_trip 4000000000 (by decide) (by decide)).2.2.2 10
      (sample_transfer true [key_entry 4000000000, key_entry 2]) (key_entry 4000000000)
      [key_entry 2] rfl rfl⟩

end mia
